import Mathlib

/-!
# Verification of the g2-sdk-go-mock clients

A shallow embedding of the three mock Senzing SDK clients (`G2engine`,
`G2configmgr`, `G2product`) of the g2-sdk-go-mock repository, together with
proofs about the observer-notification / tracing decorator pattern they share.

Modelling conventions:

* Go `string` is `String`, `int`/`int64` are `Int`, `uintptr` is `Nat`.
* A Go `error` value is `Option String` (`none` is the nil error, `some msg`
  an error whose `Error()` text is `msg`).
* The external `go-observing` observer is identified by its opaque observer
  id (`GetObserverId`), so an observer is embedded as that id (a `String`).
  The external `subject.SubjectImpl` registry is embedded, following the
  spec's contract for it, as the list of registered observer ids; the
  `observers` field of a client is `Option Subject`, `none` being Go `nil`.
* The external `messagelogger` is embedded as its current log level.
* Each façade method is a pure function from the receiver state (plus its
  value arguments; the ignored `ctx` argument is dropped) to a `Res` record
  holding the updated receiver, the returned value, the returned error, the
  trace codes emitted (in order) and the notify calls launched.
* A Go panic (nil dereference) is modelled by returning `none` from a
  method whose result type is wrapped in `Option`.
-/

namespace SenzingMock

/-- Log levels of the external go-logging `logger.Level` /
`messagelogger.Level` (the two are numerically identical and converted by a
cast in the source). -/
inductive Level
  | trace
  | debug
  | info
  | warn
  | error
  | fatal
  | panicLevel
deriving DecidableEq, Repr

/-- The external `logger.LevelToTextMap`, mapping a level to its text. -/
def levelToTextMap : Level → String
  | .trace => "TRACE"
  | .debug => "DEBUG"
  | .info => "INFO"
  | .warn => "WARN"
  | .error => "ERROR"
  | .fatal => "FATAL"
  | .panicLevel => "PANIC"

/-- The external `messagelogger.MessageLoggerInterface`, embedded as its
current log level (the only state the mocks interact with). -/
structure MessageLogger where
  level : Level
deriving DecidableEq, Repr

/-- `messagelogger.NewSenzingApiLogger(ProductId, IdMessages, IdStatuses,
messagelogger.LevelInfo)`: a fresh logger at level INFO. -/
def newSenzingApiLogger : MessageLogger := ⟨Level.info⟩

/-- `MessageLoggerInterface.SetLogLevel`. -/
def MessageLogger.setLogLevel (_ : MessageLogger) (l : Level) : MessageLogger := ⟨l⟩

/-- `MessageLoggerInterface.GetLogLevel`. -/
def MessageLogger.getLogLevel (lg : MessageLogger) : Level := lg.level

/-- An observer of the external go-observing package, embedded as its opaque
observer id (the value of `observer.GetObserverId(ctx)`). -/
abbrev Observer := String

/-- Modelled from the spec: the external `subject.SubjectImpl` observer
registry holds the set of registered observers, compared by observer id;
it supports add, remove and an emptiness query, and its add is idempotent
on the observer id. Embedded as the list of registered observer ids. -/
abbrev Subject := List Observer

/-- `subject.Subject.RegisterObserver`: add the observer, idempotent on its
id (the external add reports no failure for the mocks' usage). -/
def Subject.registerObserver (r : Subject) (o : Observer) : Subject :=
  if o ∈ r then r else r ++ [o]

/-- `subject.Subject.UnregisterObserver`: remove the observer by id. -/
def Subject.unregisterObserver (r : Subject) (o : Observer) : Subject :=
  r.filter (fun x => x ≠ o)

/-- `subject.Subject.HasObservers`: true iff at least one observer is
registered. -/
def Subject.hasObservers (r : Subject) : Bool := !r.isEmpty

/-- A Go `map[string]string`, embedded as an association list with unique
keys (assignment replaces the entry of an existing key). -/
abbrev DetailsMap := List (String × String)

/-- Lookup in a `DetailsMap` (first entry whose key matches). -/
def mapLookup (k : String) : DetailsMap → Option String
  | [] => none
  | p :: t => if p.1 = k then some p.2 else mapLookup k t

/-- Go map assignment `m[k] = v`: replace the entry for `k` if present,
otherwise add one. -/
def mapInsert (k v : String) : DetailsMap → DetailsMap
  | [] => [(k, v)]
  | p :: t => if p.1 = k then (k, v) :: t else p :: mapInsert k v t

/-- Lower-case hexadecimal digit, as produced by `encoding/json`. -/
def hexDigit (n : Nat) : Char :=
  if n < 10 then Char.ofNat (48 + n) else Char.ofNat (87 + n)

/-- Escaping of one character by Go `encoding/json` (HTML escaping on, the
default used by `json.Marshal`). -/
def jsonEscapeChar (c : Char) : String :=
  if c = '"' then "\\\""
  else if c = '\\' then "\\\\"
  else if c = '\n' then "\\n"
  else if c = '\r' then "\\r"
  else if c = '\t' then "\\t"
  else if c = '<' then "\\u003c"
  else if c = '>' then "\\u003e"
  else if c = '&' then "\\u0026"
  else if c.toNat < 32 then
    "\\u00" ++ String.mk [hexDigit (c.toNat / 16), hexDigit (c.toNat % 16)]
  else if c.toNat = 0x2028 then "\\u2028"
  else if c.toNat = 0x2029 then "\\u2029"
  else String.mk [c]

/-- A JSON string literal for `s`, as produced by Go `encoding/json`. -/
def jsonString (s : String) : String :=
  "\"" ++ String.join (s.data.map jsonEscapeChar) ++ "\""

/-- Insertion into a key-sorted `DetailsMap` (helper for `goJsonMarshal`;
`encoding/json` serializes map keys in sorted order). -/
def insertByKey (p : String × String) : DetailsMap → DetailsMap
  | [] => [p]
  | q :: t => if p.1 < q.1 then p :: q :: t else q :: insertByKey p t

/-- Sort a `DetailsMap` by key (helper for `goJsonMarshal`). -/
def sortByKey : DetailsMap → DetailsMap
  | [] => []
  | p :: t => insertByKey p (sortByKey t)

/-- Go `json.Marshal` of a `map[string]string`: a JSON object whose members
appear in sorted key order. Never fails on a string map, so the marshal
error branch of the clients' `notify` is dead code. -/
def goJsonMarshal (m : DetailsMap) : String :=
  "\x7b" ++
    String.intercalate ","
      ((sortByKey m).map (fun p => jsonString p.1 ++ ":" ++ jsonString p.2)) ++
  "\x7d"

/-- The details map built by the clients' shared `notify` helper: the given
details plus `subjectId` (the package's `ProductId` constant, rendered by
`strconv.Itoa`), `messageId` (the event id), `messageTime` (`now.UnixNano()`
rendered by `strconv.FormatInt`), and, when the error argument is non-nil,
`error` (its message text). The three clients' `notify` bodies are
identical up to the package `ProductId` constant, which is declared outside
the provided sources and is therefore kept as a parameter. -/
def notifyBuild (productId : Int) (messageId : Nat) (now : Int)
    (err : Option String) (details : DetailsMap) : DetailsMap :=
  let d1 := mapInsert "subjectId" (toString productId) details
  let d2 := mapInsert "messageId" (toString messageId) d1
  let d3 := mapInsert "messageTime" (toString now) d2
  match err with
  | some e => mapInsert "error" e d3
  | none => d3

/-- The messages published by one `notify` call: the JSON serialization of
`notifyBuild` is handed to `subject.NotifyObservers`, which (modelled from
the spec) delivers that one string to every registered observer. -/
def notifyPublish (productId : Int) (messageId : Nat) (now : Int)
    (err : Option String) (details : DetailsMap) (registry : Subject) :
    List (Observer × String) :=
  registry.map (fun o => (o, goJsonMarshal (notifyBuild productId messageId now err details)))

/-- One recorded call of the `notify` helper launched by a façade method:
the event id and error handed to `notify`, the operation-specific details
map built at the call site, and the registry that will receive the
publication. -/
structure NotifyCall where
  messageId : Nat
  errArg : Option String
  details : DetailsMap
  recipients : Subject
deriving DecidableEq, Repr

/-- Result of one façade method call: the updated receiver, the returned
value, the returned error, the trace codes emitted (in emission order) and
the notify calls launched. -/
structure Res (σ : Type) (α : Type) where
  state : σ
  ret : α
  err : Option String
  trace : List Nat
  notifies : List NotifyCall

/-- The event id of the (single) notify call of a method result, `0` when
no notification was launched. -/
def evId {σ α : Type} (r : Res σ α) : Nat :=
  ((r.notifies.map (fun n => n.messageId)).headD 0)

-- ---------------------------------------------------------------------------
-- G2configmgr (package g2configmgr)
-- ---------------------------------------------------------------------------

/-- The `G2configmgr` mock client struct. -/
structure G2configmgr where
  isTrace : Bool := false
  logger : Option MessageLogger := none
  observers : Option Subject := none
  AddConfigResult : Int := 0
  GetConfigResult : String := ""
  GetConfigListResult : String := ""
  GetDefaultConfigIDResult : Int := 0
deriving DecidableEq, Repr

namespace G2configmgr

/-- `G2configmgr.getLogger`: lazily create the logger (at level INFO) on
first use; returns the updated client and the logger. -/
def getLogger (client : G2configmgr) : G2configmgr × MessageLogger :=
  match client.logger with
  | none => ({ client with logger := some newSenzingApiLogger }, newSenzingApiLogger)
  | some lg => (client, lg)

/-- The state effect of a gated `traceEntry`/`traceExit` call: when tracing
is on, the call reaches `getLogger`, creating the logger if absent. -/
def traceInit (client : G2configmgr) : G2configmgr :=
  if client.isTrace then (getLogger client).1 else client

/-- The body shared by every standard `G2configmgr` façade method:
trace-entry when tracing is on, a nil error, an asynchronous notify when
observers are registered, a deferred trace-exit when tracing is on, and the
canned result. -/
def standardMethod {α : Type} (entryCode exitCode eventId : Nat)
    (details : DetailsMap) (result : G2configmgr → α) (client : G2configmgr) :
    Res G2configmgr α :=
  let c1 := traceInit client
  let notifies : List NotifyCall :=
    match c1.observers with
    | some registry => [⟨eventId, none, details, registry⟩]
    | none => []
  let c2 := traceInit c1
  { state := c2
    ret := result client
    err := none
    trace := (if client.isTrace then [entryCode] else []) ++
             (if c1.isTrace then [exitCode] else [])
    notifies := notifies }

/-- `G2configmgr.AddConfig`. -/
def AddConfig (client : G2configmgr) (configStr configComments : String) :
    Res G2configmgr Int :=
  standardMethod 1 2 8001 [("configComments", configComments)]
    (fun c => c.AddConfigResult) client

/-- `G2configmgr.Destroy`. -/
def Destroy (client : G2configmgr) : Res G2configmgr Unit :=
  standardMethod 5 6 8002 [] (fun _ => ()) client

/-- `G2configmgr.GetConfig`. -/
def GetConfig (client : G2configmgr) (configID : Int) : Res G2configmgr String :=
  standardMethod 7 8 8003 [] (fun c => c.GetConfigResult) client

/-- `G2configmgr.GetConfigList`. -/
def GetConfigList (client : G2configmgr) : Res G2configmgr String :=
  standardMethod 9 10 8004 [] (fun c => c.GetConfigListResult) client

/-- `G2configmgr.GetDefaultConfigID`. -/
def GetDefaultConfigID (client : G2configmgr) : Res G2configmgr Int :=
  standardMethod 11 12 8005 [] (fun c => c.GetDefaultConfigIDResult) client

/-- `G2configmgr.GetSdkId`: returns the fixed literal `"mock"`. The Go
signature returns only a string (no error value); the `err` field of the
generic `Res` is the unused `none` here. -/
def GetSdkId (client : G2configmgr) : Res G2configmgr String :=
  standardMethod 29 30 8010 [] (fun _ => "mock") client

/-- `G2configmgr.Init`. -/
def Init (client : G2configmgr) (moduleName iniParams : String)
    (verboseLogging : Int) : Res G2configmgr Unit :=
  standardMethod 17 18 8006
    [("iniParams", iniParams), ("moduleName", moduleName),
     ("verboseLogging", toString verboseLogging)]
    (fun _ => ()) client

/-- `G2configmgr.RegisterObserver`: create the registry if absent, add the
observer (the external add's error is passed through; it reports none),
then notify with the observer's id. -/
def RegisterObserver (client : G2configmgr) (o : Observer) : Res G2configmgr Unit :=
  let c1 := traceInit client
  let registry1 := (c1.observers.getD []).registerObserver o
  let c2 := { c1 with observers := some registry1 }
  let c3 := traceInit c2
  { state := c3
    ret := ()
    err := none
    trace := (if client.isTrace then [25] else []) ++
             (if c1.isTrace then [26] else [])
    notifies := [⟨8010, none, [("observerID", o)], registry1⟩] }

/-- `G2configmgr.ReplaceDefaultConfigID`. -/
def ReplaceDefaultConfigID (client : G2configmgr) (oldConfigID newConfigID : Int) :
    Res G2configmgr Unit :=
  standardMethod 19 20 8007 [("newConfigID", toString newConfigID)]
    (fun _ => ()) client

/-- `G2configmgr.SetDefaultConfigID`. -/
def SetDefaultConfigID (client : G2configmgr) (configID : Int) :
    Res G2configmgr Unit :=
  standardMethod 21 22 8008 [("configID", toString configID)]
    (fun _ => ()) client

/-- `G2configmgr.SetLogLevel`: set the logger's level, recompute `isTrace`
from the logger's new level, notify; the deferred trace-exit is gated on
the recomputed `isTrace`. -/
def SetLogLevel (client : G2configmgr) (logLevel : Level) : Res G2configmgr Unit :=
  let c1 := traceInit client
  let c2 := (getLogger c1).1
  let c3 := { c2 with logger := some ((getLogger c1).2.setLogLevel logLevel) }
  let c4 := { c3 with isTrace := ((getLogger c3).2.getLogLevel == Level.trace) }
  let notifies : List NotifyCall :=
    match c4.observers with
    | some registry => [⟨8011, none, [("logLevel", levelToTextMap logLevel)], registry⟩]
    | none => []
  let c5 := traceInit c4
  { state := c5
    ret := ()
    err := none
    trace := (if client.isTrace then [23] else []) ++
             (if c4.isTrace then [24] else [])
    notifies := notifies }

/-- `G2configmgr.UnregisterObserver`: when a registry exists, notify
synchronously (with the observer's id, while the observer is still
registered), then remove the observer and clear the registry to nil if now
empty. When no registry exists the notify is skipped but the unconditional
`client.observers.UnregisterObserver(...)` dereferences the nil `Subject`
interface: a panic, modelled as `none`. -/
def UnregisterObserver (client : G2configmgr) (o : Observer) :
    Option (Res G2configmgr Unit) :=
  let c1 := traceInit client
  match c1.observers with
  | none => none
  | some registry =>
    let registry2 := registry.unregisterObserver o
    let c2 := { c1 with observers := if registry2.hasObservers then some registry2 else none }
    let c3 := traceInit c2
    some
      { state := c3
        ret := ()
        err := none
        trace := (if client.isTrace then [27] else []) ++
                 (if c1.isTrace then [28] else [])
        notifies := [⟨8012, none, [("observerID", o)], registry⟩] }

end G2configmgr

-- ---------------------------------------------------------------------------
-- G2product (package g2product)
-- ---------------------------------------------------------------------------

/-- The `G2product` mock client struct. -/
structure G2product where
  isTrace : Bool := false
  logger : Option MessageLogger := none
  observers : Option Subject := none
  LicenseResult : String := ""
  ValidateLicenseFileResult : String := ""
  ValidateLicenseStringBase64Result : String := ""
  VersionResult : String := ""
deriving DecidableEq, Repr

namespace G2product

/-- `G2product.getLogger`: lazily create the logger (at level INFO) on
first use; returns the updated client and the logger. -/
def getLogger (client : G2product) : G2product × MessageLogger :=
  match client.logger with
  | none => ({ client with logger := some newSenzingApiLogger }, newSenzingApiLogger)
  | some lg => (client, lg)

/-- The state effect of a gated `traceEntry`/`traceExit` call: when tracing
is on, the call reaches `getLogger`, creating the logger if absent. -/
def traceInit (client : G2product) : G2product :=
  if client.isTrace then (getLogger client).1 else client

/-- The body shared by every standard `G2product` façade method (same shape
as `G2configmgr.standardMethod`). -/
def standardMethod {α : Type} (entryCode exitCode eventId : Nat)
    (details : DetailsMap) (result : G2product → α) (client : G2product) :
    Res G2product α :=
  let c1 := traceInit client
  let notifies : List NotifyCall :=
    match c1.observers with
    | some registry => [⟨eventId, none, details, registry⟩]
    | none => []
  let c2 := traceInit c1
  { state := c2
    ret := result client
    err := none
    trace := (if client.isTrace then [entryCode] else []) ++
             (if c1.isTrace then [exitCode] else [])
    notifies := notifies }

/-- `G2product.Destroy`. -/
def Destroy (client : G2product) : Res G2product Unit :=
  standardMethod 3 4 8001 [] (fun _ => ()) client

/-- `G2product.GetSdkId`: returns `("mock", nil)`; unlike the other two
clients, this Go signature does carry an error return, always nil. -/
def GetSdkId (client : G2product) : Res G2product String :=
  standardMethod 25 26 8007 [] (fun _ => "mock") client

/-- `G2product.Init`. -/
def Init (client : G2product) (moduleName iniParams : String)
    (verboseLogging : Int) : Res G2product Unit :=
  standardMethod 9 10 8002
    [("iniParams", iniParams), ("moduleName", moduleName),
     ("verboseLogging", toString verboseLogging)]
    (fun _ => ()) client

/-- `G2product.License`. -/
def License (client : G2product) : Res G2product String :=
  standardMethod 11 12 8003 [] (fun c => c.LicenseResult) client

/-- `G2product.RegisterObserver`: create the registry if absent, add the
observer, then notify with the observer's id. -/
def RegisterObserver (client : G2product) (o : Observer) : Res G2product Unit :=
  let c1 := traceInit client
  let registry1 := (c1.observers.getD []).registerObserver o
  let c2 := { c1 with observers := some registry1 }
  let c3 := traceInit c2
  { state := c3
    ret := ()
    err := none
    trace := (if client.isTrace then [21] else []) ++
             (if c1.isTrace then [22] else [])
    notifies := [⟨8008, none, [("observerID", o)], registry1⟩] }

/-- `G2product.SetLogLevel`: set the logger's level, recompute `isTrace`
from the logger's new level, notify; the deferred trace-exit is gated on
the recomputed `isTrace`. -/
def SetLogLevel (client : G2product) (logLevel : Level) : Res G2product Unit :=
  let c1 := traceInit client
  let c2 := (getLogger c1).1
  let c3 := { c2 with logger := some ((getLogger c1).2.setLogLevel logLevel) }
  let c4 := { c3 with isTrace := ((getLogger c3).2.getLogLevel == Level.trace) }
  let notifies : List NotifyCall :=
    match c4.observers with
    | some registry => [⟨8009, none, [("logLevel", levelToTextMap logLevel)], registry⟩]
    | none => []
  let c5 := traceInit c4
  { state := c5
    ret := ()
    err := none
    trace := (if client.isTrace then [13] else []) ++
             (if c4.isTrace then [14] else [])
    notifies := notifies }

/-- `G2product.UnregisterObserver`: same shape as the other clients'
unregister, including the nil-dereference panic (modelled as `none`) when
no registry exists. -/
def UnregisterObserver (client : G2product) (o : Observer) :
    Option (Res G2product Unit) :=
  let c1 := traceInit client
  match c1.observers with
  | none => none
  | some registry =>
    let registry2 := registry.unregisterObserver o
    let c2 := { c1 with observers := if registry2.hasObservers then some registry2 else none }
    let c3 := traceInit c2
    some
      { state := c3
        ret := ()
        err := none
        trace := (if client.isTrace then [23] else []) ++
                 (if c1.isTrace then [24] else [])
        notifies := [⟨8010, none, [("observerID", o)], registry⟩] }

/-- `G2product.ValidateLicenseFile`. -/
def ValidateLicenseFile (client : G2product) (licenseFilePath : String) :
    Res G2product String :=
  standardMethod 15 16 8004 [] (fun c => c.ValidateLicenseFileResult) client

/-- `G2product.ValidateLicenseStringBase64`. -/
def ValidateLicenseStringBase64 (client : G2product) (licenseString : String) :
    Res G2product String :=
  standardMethod 17 18 8005 [] (fun c => c.ValidateLicenseStringBase64Result) client

/-- `G2product.Version`. -/
def Version (client : G2product) : Res G2product String :=
  standardMethod 19 20 8006 [] (fun c => c.VersionResult) client

end G2product

-- ---------------------------------------------------------------------------
-- G2engine (package g2engine)
-- ---------------------------------------------------------------------------

/-- The `G2engine` mock client struct. -/
structure G2engine where
  isTrace : Bool := false
  logger : Option MessageLogger := none
  observers : Option Subject := none
  AddRecordWithInfoResult : String := ""
  AddRecordWithInfoWithReturnedRecordIDResultGetWithInfo : String := ""
  AddRecordWithInfoWithReturnedRecordIDResultRecordID : String := ""
  AddRecordWithReturnedRecordIDResult : String := ""
  CheckRecordResult : String := ""
  CountRedoRecordsResult : Int := 0
  DeleteRecordWithInfoResult : String := ""
  ExportConfigResult : String := ""
  ExportConfigAndConfigIDResultConfig : String := ""
  ExportConfigAndConfigIDResultConfigID : Int := 0
  ExportCSVEntityReportResult : Nat := 0
  ExportJSONEntityReportResult : Nat := 0
  FetchNextResult : String := ""
  FindInterestingEntitiesByEntityIDResult : String := ""
  FindInterestingEntitiesByRecordIDResult : String := ""
  FindNetworkByEntityID_V2Result : String := ""
  FindNetworkByEntityIDResult : String := ""
  FindNetworkByRecordID_V2Result : String := ""
  FindNetworkByRecordIDResult : String := ""
  FindPathByEntityID_V2Result : String := ""
  FindPathByEntityIDResult : String := ""
  FindPathByRecordID_V2Result : String := ""
  FindPathByRecordIDResult : String := ""
  FindPathExcludingByEntityID_V2Result : String := ""
  FindPathExcludingByEntityIDResult : String := ""
  FindPathExcludingByRecordID_V2Result : String := ""
  FindPathExcludingByRecordIDResult : String := ""
  FindPathIncludingSourceByEntityID_V2Result : String := ""
  FindPathIncludingSourceByEntityIDResult : String := ""
  FindPathIncludingSourceByRecordID_V2Result : String := ""
  FindPathIncludingSourceByRecordIDResult : String := ""
  GetActiveConfigIDResult : Int := 0
  GetEntityByEntityID_V2Result : String := ""
  GetEntityByEntityIDResult : String := ""
  GetEntityByRecordID_V2Result : String := ""
  GetEntityByRecordIDResult : String := ""
  GetRecord_V2Result : String := ""
  GetRecordResult : String := ""
  GetRedoRecordResult : String := ""
  GetRepositoryLastModifiedTimeResult : Int := 0
  GetVirtualEntityByRecordID_V2Result : String := ""
  GetVirtualEntityByRecordIDResult : String := ""
  HowEntityByEntityID_V2Result : String := ""
  HowEntityByEntityIDResult : String := ""
  ProcessRedoRecordResult : String := ""
  ProcessRedoRecordWithInfoResult : String := ""
  ProcessRedoRecordWithInfoResultWithInfo : String := ""
  ProcessWithInfoResult : String := ""
  ProcessWithResponseResult : String := ""
  ProcessWithResponseResizeResult : String := ""
  ReevaluateEntityWithInfoResult : String := ""
  ReevaluateRecordWithInfoResult : String := ""
  ReplaceRecordWithInfoResult : String := ""
  SearchByAttributes_V2Result : String := ""
  SearchByAttributesResult : String := ""
  StatsResult : String := ""
  WhyEntities_V2Result : String := ""
  WhyEntitiesResult : String := ""
  WhyEntityByEntityID_V2Result : String := ""
  WhyEntityByEntityIDResult : String := ""
  WhyEntityByRecordID_V2Result : String := ""
  WhyEntityByRecordIDResult : String := ""
  WhyRecords_V2Result : String := ""
  WhyRecordsResult : String := ""
deriving DecidableEq, Repr

namespace G2engine

/-- `G2engine.getLogger`: lazily create the logger (at level INFO) on first
use; returns the updated client and the logger. -/
def getLogger (client : G2engine) : G2engine × MessageLogger :=
  match client.logger with
  | none => ({ client with logger := some newSenzingApiLogger }, newSenzingApiLogger)
  | some lg => (client, lg)

/-- The state effect of a gated `traceEntry`/`traceExit` call: when tracing
is on, the call reaches `getLogger`, creating the logger if absent. -/
def traceInit (client : G2engine) : G2engine :=
  if client.isTrace then (getLogger client).1 else client

/-- The body shared by every standard `G2engine` façade method (same shape
as `G2configmgr.standardMethod`). -/
def standardMethod {α : Type} (entryCode exitCode eventId : Nat)
    (details : DetailsMap) (result : G2engine → α) (client : G2engine) :
    Res G2engine α :=
  let c1 := traceInit client
  let notifies : List NotifyCall :=
    match c1.observers with
    | some registry => [⟨eventId, none, details, registry⟩]
    | none => []
  let c2 := traceInit c1
  { state := c2
    ret := result client
    err := none
    trace := (if client.isTrace then [entryCode] else []) ++
             (if c1.isTrace then [exitCode] else [])
    notifies := notifies }

/-- `G2engine.AddRecord`. -/
def AddRecord (client : G2engine) (dataSourceCode recordID jsonData loadID : String) :
    Res G2engine Unit :=
  standardMethod 1 2 8001
    [("dataSourceCode", dataSourceCode), ("recordID", recordID), ("loadID", loadID)]
    (fun _ => ()) client

/-- `G2engine.AddRecordWithInfo`. -/
def AddRecordWithInfo (client : G2engine)
    (dataSourceCode recordID jsonData loadID : String) (flags : Int) :
    Res G2engine String :=
  standardMethod 3 4 8002
    [("dataSourceCode", dataSourceCode), ("recordID", recordID), ("loadID", loadID)]
    (fun c => c.AddRecordWithInfoResult) client

/-- `G2engine.AddRecordWithInfoWithReturnedRecordID`: the notify details
report the canned record id that the call will return. -/
def AddRecordWithInfoWithReturnedRecordID (client : G2engine)
    (dataSourceCode jsonData loadID : String) (flags : Int) :
    Res G2engine (String × String) :=
  standardMethod 5 6 8003
    [("dataSourceCode", dataSourceCode),
     ("recordID", client.AddRecordWithInfoWithReturnedRecordIDResultRecordID),
     ("loadID", loadID)]
    (fun c => (c.AddRecordWithInfoWithReturnedRecordIDResultGetWithInfo,
               c.AddRecordWithInfoWithReturnedRecordIDResultRecordID)) client

/-- `G2engine.AddRecordWithReturnedRecordID`. -/
def AddRecordWithReturnedRecordID (client : G2engine)
    (dataSourceCode jsonData loadID : String) : Res G2engine String :=
  standardMethod 7 8 8004
    [("dataSourceCode", dataSourceCode),
     ("recordID", client.AddRecordWithReturnedRecordIDResult),
     ("loadID", loadID)]
    (fun c => c.AddRecordWithReturnedRecordIDResult) client

/-- `G2engine.CheckRecord`. -/
def CheckRecord (client : G2engine) (record recordQueryList : String) :
    Res G2engine String :=
  standardMethod 9 10 8005 [] (fun c => c.CheckRecordResult) client

/-- `G2engine.CloseExport`. -/
def CloseExport (client : G2engine) (responseHandle : Nat) : Res G2engine Unit :=
  standardMethod 13 14 8006 [] (fun _ => ()) client

/-- `G2engine.CountRedoRecords`. -/
def CountRedoRecords (client : G2engine) : Res G2engine Int :=
  standardMethod 15 16 8007 [] (fun c => c.CountRedoRecordsResult) client

/-- `G2engine.DeleteRecord`. -/
def DeleteRecord (client : G2engine) (dataSourceCode recordID loadID : String) :
    Res G2engine Unit :=
  standardMethod 17 18 8008
    [("dataSourceCode", dataSourceCode), ("recordID", recordID), ("loadID", loadID)]
    (fun _ => ()) client

/-- `G2engine.DeleteRecordWithInfo`. -/
def DeleteRecordWithInfo (client : G2engine)
    (dataSourceCode recordID loadID : String) (flags : Int) : Res G2engine String :=
  standardMethod 19 20 8009
    [("dataSourceCode", dataSourceCode), ("recordID", recordID), ("loadID", loadID)]
    (fun c => c.DeleteRecordWithInfoResult) client

/-- `G2engine.Destroy`. -/
def Destroy (client : G2engine) : Res G2engine Unit :=
  standardMethod 21 22 8010 [] (fun _ => ()) client

/-- `G2engine.ExportConfig`. -/
def ExportConfig (client : G2engine) : Res G2engine String :=
  standardMethod 25 26 8011 [] (fun c => c.ExportConfigResult) client

/-- `G2engine.ExportConfigAndConfigID`. -/
def ExportConfigAndConfigID (client : G2engine) : Res G2engine (String × Int) :=
  standardMethod 23 24 8012
    [("configID", toString client.ExportConfigAndConfigIDResultConfigID)]
    (fun c => (c.ExportConfigAndConfigIDResultConfig,
               c.ExportConfigAndConfigIDResultConfigID)) client

/-- `G2engine.ExportCSVEntityReport`. -/
def ExportCSVEntityReport (client : G2engine) (csvColumnList : String)
    (flags : Int) : Res G2engine Nat :=
  standardMethod 27 28 8013 [] (fun c => c.ExportCSVEntityReportResult) client

/-- `G2engine.ExportJSONEntityReport`. -/
def ExportJSONEntityReport (client : G2engine) (flags : Int) : Res G2engine Nat :=
  standardMethod 29 30 8014 [] (fun c => c.ExportJSONEntityReportResult) client

/-- `G2engine.FetchNext`. -/
def FetchNext (client : G2engine) (responseHandle : Nat) : Res G2engine String :=
  standardMethod 31 32 8015 [] (fun c => c.FetchNextResult) client

/-- `G2engine.FindInterestingEntitiesByEntityID`. -/
def FindInterestingEntitiesByEntityID (client : G2engine) (entityID flags : Int) :
    Res G2engine String :=
  standardMethod 33 34 8016 [("entityID", toString entityID)]
    (fun c => c.FindInterestingEntitiesByEntityIDResult) client

/-- `G2engine.FindInterestingEntitiesByRecordID`. -/
def FindInterestingEntitiesByRecordID (client : G2engine)
    (dataSourceCode recordID : String) (flags : Int) : Res G2engine String :=
  standardMethod 35 36 8017
    [("dataSourceCode", dataSourceCode), ("recordID", recordID)]
    (fun c => c.FindInterestingEntitiesByRecordIDResult) client

/-- `G2engine.FindNetworkByEntityID`. -/
def FindNetworkByEntityID (client : G2engine) (entityList : String)
    (maxDegree buildOutDegree maxEntities : Int) : Res G2engine String :=
  standardMethod 37 38 8018 [("entityList", entityList)]
    (fun c => c.FindNetworkByEntityIDResult) client

/-- `G2engine.FindNetworkByEntityID_V2`. -/
def FindNetworkByEntityID_V2 (client : G2engine) (entityList : String)
    (maxDegree buildOutDegree maxEntities flags : Int) : Res G2engine String :=
  standardMethod 39 40 8019 [("entityList", entityList)]
    (fun c => c.FindNetworkByEntityID_V2Result) client

/-- `G2engine.FindNetworkByRecordID`. -/
def FindNetworkByRecordID (client : G2engine) (recordList : String)
    (maxDegree buildOutDegree maxEntities : Int) : Res G2engine String :=
  standardMethod 41 42 8020 [("recordList", recordList)]
    (fun c => c.FindNetworkByRecordIDResult) client

/-- `G2engine.FindNetworkByRecordID_V2`. -/
def FindNetworkByRecordID_V2 (client : G2engine) (recordList : String)
    (maxDegree buildOutDegree maxEntities flags : Int) : Res G2engine String :=
  standardMethod 43 44 8021 [("recordList", recordList)]
    (fun c => c.FindNetworkByRecordID_V2Result) client

/-- `G2engine.FindPathByEntityID`. -/
def FindPathByEntityID (client : G2engine) (entityID1 entityID2 maxDegree : Int) :
    Res G2engine String :=
  standardMethod 45 46 8022
    [("entityID1", toString entityID1), ("entityID2", toString entityID2)]
    (fun c => c.FindPathByEntityIDResult) client

/-- `G2engine.FindPathByEntityID_V2`. -/
def FindPathByEntityID_V2 (client : G2engine)
    (entityID1 entityID2 maxDegree flags : Int) : Res G2engine String :=
  standardMethod 47 48 8023
    [("entityID1", toString entityID1), ("entityID2", toString entityID2)]
    (fun c => c.FindPathByEntityID_V2Result) client

/-- `G2engine.FindPathByRecordID`. -/
def FindPathByRecordID (client : G2engine)
    (dataSourceCode1 recordID1 dataSourceCode2 recordID2 : String)
    (maxDegree : Int) : Res G2engine String :=
  standardMethod 49 50 8024
    [("dataSourceCode1", dataSourceCode1), ("recordID1", recordID1),
     ("dataSourceCode2", dataSourceCode2), ("recordID2", recordID2)]
    (fun c => c.FindPathByRecordIDResult) client

/-- `G2engine.FindPathByRecordID_V2`. -/
def FindPathByRecordID_V2 (client : G2engine)
    (dataSourceCode1 recordID1 dataSourceCode2 recordID2 : String)
    (maxDegree flags : Int) : Res G2engine String :=
  standardMethod 51 52 8025
    [("dataSourceCode1", dataSourceCode1), ("recordID1", recordID1),
     ("dataSourceCode2", dataSourceCode2), ("recordID2", recordID2)]
    (fun c => c.FindPathByRecordID_V2Result) client

/-- `G2engine.FindPathExcludingByEntityID`. -/
def FindPathExcludingByEntityID (client : G2engine)
    (entityID1 entityID2 maxDegree : Int) (excludedEntities : String) :
    Res G2engine String :=
  standardMethod 53 54 8026
    [("entityID1", toString entityID1), ("entityID2", toString entityID2)]
    (fun c => c.FindPathExcludingByEntityIDResult) client

/-- `G2engine.FindPathExcludingByEntityID_V2`. -/
def FindPathExcludingByEntityID_V2 (client : G2engine)
    (entityID1 entityID2 maxDegree : Int) (excludedEntities : String)
    (flags : Int) : Res G2engine String :=
  standardMethod 55 56 8027
    [("entityID1", toString entityID1), ("entityID2", toString entityID2)]
    (fun c => c.FindPathExcludingByEntityID_V2Result) client

/-- `G2engine.FindPathExcludingByRecordID`. -/
def FindPathExcludingByRecordID (client : G2engine)
    (dataSourceCode1 recordID1 dataSourceCode2 recordID2 : String)
    (maxDegree : Int) (excludedRecords : String) : Res G2engine String :=
  standardMethod 57 58 8028
    [("dataSourceCode1", dataSourceCode1), ("recordID1", recordID1),
     ("dataSourceCode2", dataSourceCode2), ("recordID2", recordID2)]
    (fun c => c.FindPathExcludingByRecordIDResult) client

/-- `G2engine.FindPathExcludingByRecordID_V2`. -/
def FindPathExcludingByRecordID_V2 (client : G2engine)
    (dataSourceCode1 recordID1 dataSourceCode2 recordID2 : String)
    (maxDegree : Int) (excludedRecords : String) (flags : Int) :
    Res G2engine String :=
  standardMethod 59 60 8029
    [("dataSourceCode1", dataSourceCode1), ("recordID1", recordID1),
     ("dataSourceCode2", dataSourceCode2), ("recordID2", recordID2)]
    (fun c => c.FindPathExcludingByRecordID_V2Result) client

/-- `G2engine.FindPathIncludingSourceByEntityID`. -/
def FindPathIncludingSourceByEntityID (client : G2engine)
    (entityID1 entityID2 maxDegree : Int)
    (excludedEntities requiredDsrcs : String) : Res G2engine String :=
  standardMethod 61 62 8030
    [("entityID1", toString entityID1), ("entityID2", toString entityID2)]
    (fun c => c.FindPathIncludingSourceByEntityIDResult) client

/-- `G2engine.FindPathIncludingSourceByEntityID_V2`. -/
def FindPathIncludingSourceByEntityID_V2 (client : G2engine)
    (entityID1 entityID2 maxDegree : Int)
    (excludedEntities requiredDsrcs : String) (flags : Int) :
    Res G2engine String :=
  standardMethod 63 64 8031
    [("entityID1", toString entityID1), ("entityID2", toString entityID2)]
    (fun c => c.FindPathIncludingSourceByEntityID_V2Result) client

/-- `G2engine.FindPathIncludingSourceByRecordID`. -/
def FindPathIncludingSourceByRecordID (client : G2engine)
    (dataSourceCode1 recordID1 dataSourceCode2 recordID2 : String)
    (maxDegree : Int) (excludedRecords requiredDsrcs : String) :
    Res G2engine String :=
  standardMethod 65 66 8032
    [("dataSourceCode1", dataSourceCode1), ("recordID1", recordID1),
     ("dataSourceCode2", dataSourceCode2), ("recordID2", recordID2)]
    (fun c => c.FindPathIncludingSourceByRecordIDResult) client

/-- `G2engine.FindPathIncludingSourceByRecordID_V2`. -/
def FindPathIncludingSourceByRecordID_V2 (client : G2engine)
    (dataSourceCode1 recordID1 dataSourceCode2 recordID2 : String)
    (maxDegree : Int) (excludedRecords requiredDsrcs : String) (flags : Int) :
    Res G2engine String :=
  standardMethod 67 68 8033
    [("dataSourceCode1", dataSourceCode1), ("recordID1", recordID1),
     ("dataSourceCode2", dataSourceCode2), ("recordID2", recordID2)]
    (fun c => c.FindPathIncludingSourceByRecordID_V2Result) client

/-- `G2engine.GetActiveConfigID`. -/
def GetActiveConfigID (client : G2engine) : Res G2engine Int :=
  standardMethod 69 70 8034 [] (fun c => c.GetActiveConfigIDResult) client

/-- `G2engine.GetEntityByEntityID`. -/
def GetEntityByEntityID (client : G2engine) (entityID : Int) : Res G2engine String :=
  standardMethod 71 72 8035 [("entityID", toString entityID)]
    (fun c => c.GetEntityByEntityIDResult) client

/-- `G2engine.GetEntityByEntityID_V2`. -/
def GetEntityByEntityID_V2 (client : G2engine) (entityID flags : Int) :
    Res G2engine String :=
  standardMethod 73 74 8036 [("entityID", toString entityID)]
    (fun c => c.GetEntityByEntityID_V2Result) client

/-- `G2engine.GetEntityByRecordID`. -/
def GetEntityByRecordID (client : G2engine) (dataSourceCode recordID : String) :
    Res G2engine String :=
  standardMethod 75 76 8037
    [("dataSourceCode", dataSourceCode), ("recordID", recordID)]
    (fun c => c.GetEntityByRecordIDResult) client

/-- `G2engine.GetEntityByRecordID_V2`. -/
def GetEntityByRecordID_V2 (client : G2engine)
    (dataSourceCode recordID : String) (flags : Int) : Res G2engine String :=
  standardMethod 77 78 8038
    [("dataSourceCode", dataSourceCode), ("recordID", recordID)]
    (fun c => c.GetEntityByRecordID_V2Result) client

/-- `G2engine.GetRecord`. -/
def GetRecord (client : G2engine) (dataSourceCode recordID : String) :
    Res G2engine String :=
  standardMethod 83 84 8039
    [("dataSourceCode", dataSourceCode), ("recordID", recordID)]
    (fun c => c.GetRecordResult) client

/-- `G2engine.GetRecord_V2`. -/
def GetRecord_V2 (client : G2engine) (dataSourceCode recordID : String)
    (flags : Int) : Res G2engine String :=
  standardMethod 85 86 8040
    [("dataSourceCode", dataSourceCode), ("recordID", recordID)]
    (fun c => c.GetRecord_V2Result) client

/-- `G2engine.GetRedoRecord`. -/
def GetRedoRecord (client : G2engine) : Res G2engine String :=
  standardMethod 87 88 8041 [] (fun c => c.GetRedoRecordResult) client

/-- `G2engine.GetRepositoryLastModifiedTime`. -/
def GetRepositoryLastModifiedTime (client : G2engine) : Res G2engine Int :=
  standardMethod 89 90 8042 [] (fun c => c.GetRepositoryLastModifiedTimeResult) client

/-- `G2engine.GetSdkId`: returns the fixed literal `"mock"`. The Go
signature returns only a string (no error value); the `err` field of the
generic `Res` is the unused `none` here. -/
def GetSdkId (client : G2engine) : Res G2engine String :=
  standardMethod 161 162 8075 [] (fun _ => "mock") client

/-- `G2engine.GetVirtualEntityByRecordID`. -/
def GetVirtualEntityByRecordID (client : G2engine) (recordList : String) :
    Res G2engine String :=
  standardMethod 91 92 8043 [("recordList", recordList)]
    (fun c => c.GetVirtualEntityByRecordIDResult) client

/-- `G2engine.GetVirtualEntityByRecordID_V2`. -/
def GetVirtualEntityByRecordID_V2 (client : G2engine) (recordList : String)
    (flags : Int) : Res G2engine String :=
  standardMethod 93 94 8044 [("recordList", recordList)]
    (fun c => c.GetVirtualEntityByRecordID_V2Result) client

/-- `G2engine.HowEntityByEntityID`. -/
def HowEntityByEntityID (client : G2engine) (entityID : Int) : Res G2engine String :=
  standardMethod 95 96 8045 [("entityID", toString entityID)]
    (fun c => c.HowEntityByEntityIDResult) client

/-- `G2engine.HowEntityByEntityID_V2`. -/
def HowEntityByEntityID_V2 (client : G2engine) (entityID flags : Int) :
    Res G2engine String :=
  standardMethod 97 98 8046 [("entityID", toString entityID)]
    (fun c => c.HowEntityByEntityID_V2Result) client

/-- `G2engine.Init`. -/
def Init (client : G2engine) (moduleName iniParams : String)
    (verboseLogging : Int) : Res G2engine Unit :=
  standardMethod 99 100 8047
    [("iniParams", iniParams), ("moduleName", moduleName),
     ("verboseLogging", toString verboseLogging)]
    (fun _ => ()) client

/-- `G2engine.InitWithConfigID`. -/
def InitWithConfigID (client : G2engine) (moduleName iniParams : String)
    (initConfigID verboseLogging : Int) : Res G2engine Unit :=
  standardMethod 101 102 8048
    [("iniParams", iniParams), ("initConfigID", toString initConfigID),
     ("moduleName", moduleName), ("verboseLogging", toString verboseLogging)]
    (fun _ => ()) client

/-- `G2engine.PrimeEngine`. -/
def PrimeEngine (client : G2engine) : Res G2engine Unit :=
  standardMethod 103 104 8049 [] (fun _ => ()) client

/-- `G2engine.Process`. -/
def Process (client : G2engine) (record : String) : Res G2engine Unit :=
  standardMethod 105 106 8050 [] (fun _ => ()) client

/-- `G2engine.ProcessRedoRecord`. -/
def ProcessRedoRecord (client : G2engine) : Res G2engine String :=
  standardMethod 107 108 8051 [] (fun c => c.ProcessRedoRecordResult) client

/-- `G2engine.ProcessRedoRecordWithInfo`. -/
def ProcessRedoRecordWithInfo (client : G2engine) (flags : Int) :
    Res G2engine (String × String) :=
  standardMethod 109 110 8052 []
    (fun c => (c.ProcessRedoRecordWithInfoResult,
               c.ProcessRedoRecordWithInfoResultWithInfo)) client

/-- `G2engine.ProcessWithInfo`. -/
def ProcessWithInfo (client : G2engine) (record : String) (flags : Int) :
    Res G2engine String :=
  standardMethod 111 112 8053 [] (fun c => c.ProcessWithInfoResult) client

/-- `G2engine.ProcessWithResponse`. -/
def ProcessWithResponse (client : G2engine) (record : String) :
    Res G2engine String :=
  standardMethod 113 114 8054 [] (fun c => c.ProcessWithResponseResult) client

/-- `G2engine.ProcessWithResponseResize`. -/
def ProcessWithResponseResize (client : G2engine) (record : String) :
    Res G2engine String :=
  standardMethod 115 116 8055 [] (fun c => c.ProcessWithResponseResizeResult) client

/-- `G2engine.PurgeRepository`. -/
def PurgeRepository (client : G2engine) : Res G2engine Unit :=
  standardMethod 117 118 8056 [] (fun _ => ()) client

/-- `G2engine.ReevaluateEntity`. -/
def ReevaluateEntity (client : G2engine) (entityID flags : Int) :
    Res G2engine Unit :=
  standardMethod 119 120 8057 [("entityID", toString entityID)]
    (fun _ => ()) client

/-- `G2engine.ReevaluateEntityWithInfo`. -/
def ReevaluateEntityWithInfo (client : G2engine) (entityID flags : Int) :
    Res G2engine String :=
  standardMethod 121 122 8058 [("entityID", toString entityID)]
    (fun c => c.ReevaluateEntityWithInfoResult) client

/-- `G2engine.ReevaluateRecord`. -/
def ReevaluateRecord (client : G2engine) (dataSourceCode recordID : String)
    (flags : Int) : Res G2engine Unit :=
  standardMethod 123 124 8059
    [("dataSourceCode", dataSourceCode), ("recordID", recordID)]
    (fun _ => ()) client

/-- `G2engine.ReevaluateRecordWithInfo`. -/
def ReevaluateRecordWithInfo (client : G2engine)
    (dataSourceCode recordID : String) (flags : Int) : Res G2engine String :=
  standardMethod 125 126 8060
    [("dataSourceCode", dataSourceCode), ("recordID", recordID)]
    (fun c => c.ReevaluateRecordWithInfoResult) client

/-- `G2engine.RegisterObserver`: create the registry if absent, add the
observer, then notify with the observer's id. -/
def RegisterObserver (client : G2engine) (o : Observer) : Res G2engine Unit :=
  let c1 := traceInit client
  let registry1 := (c1.observers.getD []).registerObserver o
  let c2 := { c1 with observers := some registry1 }
  let c3 := traceInit c2
  { state := c3
    ret := ()
    err := none
    trace := (if client.isTrace then [157] else []) ++
             (if c1.isTrace then [158] else [])
    notifies := [⟨8076, none, [("observerID", o)], registry1⟩] }

/-- `G2engine.Reinit`. -/
def Reinit (client : G2engine) (initConfigID : Int) : Res G2engine Unit :=
  standardMethod 127 128 8061 [("initConfigID", toString initConfigID)]
    (fun _ => ()) client

/-- `G2engine.ReplaceRecord`. -/
def ReplaceRecord (client : G2engine)
    (dataSourceCode recordID jsonData loadID : String) : Res G2engine Unit :=
  standardMethod 129 130 8062
    [("dataSourceCode", dataSourceCode), ("recordID", recordID), ("loadID", loadID)]
    (fun _ => ()) client

/-- `G2engine.ReplaceRecordWithInfo`. -/
def ReplaceRecordWithInfo (client : G2engine)
    (dataSourceCode recordID jsonData loadID : String) (flags : Int) :
    Res G2engine String :=
  standardMethod 131 132 8063
    [("dataSourceCode", dataSourceCode), ("recordID", recordID), ("loadID", loadID)]
    (fun c => c.ReplaceRecordWithInfoResult) client

/-- `G2engine.SearchByAttributes`. -/
def SearchByAttributes (client : G2engine) (jsonData : String) :
    Res G2engine String :=
  standardMethod 133 134 8064 [] (fun c => c.SearchByAttributesResult) client

/-- `G2engine.SearchByAttributes_V2`. -/
def SearchByAttributes_V2 (client : G2engine) (jsonData : String) (flags : Int) :
    Res G2engine String :=
  standardMethod 135 136 8065 [] (fun c => c.SearchByAttributes_V2Result) client

/-- `G2engine.SetLogLevel`: set the logger's level, recompute `isTrace`
from the logger's new level, notify; the deferred trace-exit is gated on
the recomputed `isTrace`. -/
def SetLogLevel (client : G2engine) (logLevel : Level) : Res G2engine Unit :=
  let c1 := traceInit client
  let c2 := (getLogger c1).1
  let c3 := { c2 with logger := some ((getLogger c1).2.setLogLevel logLevel) }
  let c4 := { c3 with isTrace := ((getLogger c3).2.getLogLevel == Level.trace) }
  let notifies : List NotifyCall :=
    match c4.observers with
    | some registry => [⟨8077, none, [("logLevel", levelToTextMap logLevel)], registry⟩]
    | none => []
  let c5 := traceInit c4
  { state := c5
    ret := ()
    err := none
    trace := (if client.isTrace then [137] else []) ++
             (if c4.isTrace then [138] else [])
    notifies := notifies }

/-- `G2engine.Stats`. -/
def Stats (client : G2engine) : Res G2engine String :=
  standardMethod 139 140 8066 [] (fun c => c.StatsResult) client

/-- `G2engine.UnregisterObserver`: when a registry exists, notify
synchronously (with the observer's id, while the observer is still
registered), then remove the observer and clear the registry to nil if now
empty. When no registry exists the notify is skipped but the unconditional
`client.observers.UnregisterObserver(...)` dereferences the nil `Subject`
interface: a panic, modelled as `none`. -/
def UnregisterObserver (client : G2engine) (o : Observer) :
    Option (Res G2engine Unit) :=
  let c1 := traceInit client
  match c1.observers with
  | none => none
  | some registry =>
    let registry2 := registry.unregisterObserver o
    let c2 := { c1 with observers := if registry2.hasObservers then some registry2 else none }
    let c3 := traceInit c2
    some
      { state := c3
        ret := ()
        err := none
        trace := (if client.isTrace then [159] else []) ++
                 (if c1.isTrace then [160] else [])
        notifies := [⟨8078, none, [("observerID", o)], registry⟩] }

/-- `G2engine.WhyEntities`. -/
def WhyEntities (client : G2engine) (entityID1 entityID2 : Int) :
    Res G2engine String :=
  standardMethod 141 142 8067
    [("entityID1", toString entityID1), ("entityID2", toString entityID2)]
    (fun c => c.WhyEntitiesResult) client

/-- `G2engine.WhyEntities_V2`. -/
def WhyEntities_V2 (client : G2engine) (entityID1 entityID2 flags : Int) :
    Res G2engine String :=
  standardMethod 143 144 8068
    [("entityID1", toString entityID1), ("entityID2", toString entityID2)]
    (fun c => c.WhyEntities_V2Result) client

/-- `G2engine.WhyEntityByEntityID`. -/
def WhyEntityByEntityID (client : G2engine) (entityID : Int) :
    Res G2engine String :=
  standardMethod 145 146 8069 [("entityID", toString entityID)]
    (fun c => c.WhyEntityByEntityIDResult) client

/-- `G2engine.WhyEntityByEntityID_V2`. -/
def WhyEntityByEntityID_V2 (client : G2engine) (entityID flags : Int) :
    Res G2engine String :=
  standardMethod 147 148 8070 [("entityID", toString entityID)]
    (fun c => c.WhyEntityByEntityID_V2Result) client

/-- `G2engine.WhyEntityByRecordID`. -/
def WhyEntityByRecordID (client : G2engine) (dataSourceCode recordID : String) :
    Res G2engine String :=
  standardMethod 149 150 8071
    [("dataSourceCode", dataSourceCode), ("recordID", recordID)]
    (fun c => c.WhyEntityByRecordIDResult) client

/-- `G2engine.WhyEntityByRecordID_V2`. -/
def WhyEntityByRecordID_V2 (client : G2engine)
    (dataSourceCode recordID : String) (flags : Int) : Res G2engine String :=
  standardMethod 151 152 8072
    [("dataSourceCode", dataSourceCode), ("recordID", recordID)]
    (fun c => c.WhyEntityByRecordID_V2Result) client

/-- `G2engine.WhyRecords`. -/
def WhyRecords (client : G2engine)
    (dataSourceCode1 recordID1 dataSourceCode2 recordID2 : String) :
    Res G2engine String :=
  standardMethod 153 154 8073
    [("dataSourceCode1", dataSourceCode1), ("recordID1", recordID1),
     ("dataSourceCode2", dataSourceCode2), ("recordID2", recordID2)]
    (fun c => c.WhyRecordsResult) client

/-- `G2engine.WhyRecords_V2`. -/
def WhyRecords_V2 (client : G2engine)
    (dataSourceCode1 recordID1 dataSourceCode2 recordID2 : String)
    (flags : Int) : Res G2engine String :=
  standardMethod 155 156 8074
    [("dataSourceCode1", dataSourceCode1), ("recordID1", recordID1),
     ("dataSourceCode2", dataSourceCode2), ("recordID2", recordID2)]
    (fun c => c.WhyRecords_V2Result) client

end G2engine

-- ---------------------------------------------------------------------------
-- Observer-registry state invariant and helper lemmas
-- ---------------------------------------------------------------------------

/-- The registry-shape invariant of the spec: the `observers` field is
either nil or refers to a registry holding at least one observer (never an
empty-but-present registry). -/
def wfObservers (o : Option Subject) : Prop := o ≠ some []

instance (o : Option Subject) : Decidable (wfObservers o) := by
  unfold wfObservers
  infer_instance

/-- Adding an observer to a registry never yields an empty registry. -/
theorem registerObserver_ne_nil (r : Subject) (o : Observer) :
    Subject.registerObserver r o ≠ [] := by
  unfold Subject.registerObserver
  split
  · rename_i h
    rintro rfl
    simp at h
  · simp

@[simp]
theorem engine_getLogger_fst_isTrace (c : G2engine) :
    (G2engine.getLogger c).1.isTrace = c.isTrace := by
  unfold G2engine.getLogger
  cases h : c.logger <;> simp [h]

@[simp]
theorem engine_getLogger_fst_observers (c : G2engine) :
    (G2engine.getLogger c).1.observers = c.observers := by
  unfold G2engine.getLogger
  cases h : c.logger <;> simp [h]

@[simp]
theorem engine_traceInit_isTrace (c : G2engine) :
    (G2engine.traceInit c).isTrace = c.isTrace := by
  unfold G2engine.traceInit G2engine.getLogger
  split
  · cases h : c.logger <;> simp [h]
  · rfl

@[simp]
theorem engine_traceInit_observers (c : G2engine) :
    (G2engine.traceInit c).observers = c.observers := by
  unfold G2engine.traceInit G2engine.getLogger
  split
  · cases h : c.logger <;> simp [h]
  · rfl

theorem engine_traceInit_logger_of_some (c : G2engine) (lg : MessageLogger)
    (h : c.logger = some lg) : (G2engine.traceInit c).logger = some lg := by
  unfold G2engine.traceInit G2engine.getLogger
  split
  · simp [h]
  · exact h

@[simp]
theorem engine_std_err {α : Type} (ec xc ev : Nat) (d : DetailsMap)
    (res : G2engine → α) (c : G2engine) :
    (G2engine.standardMethod ec xc ev d res c).err = none := rfl

@[simp]
theorem engine_std_ret {α : Type} (ec xc ev : Nat) (d : DetailsMap)
    (res : G2engine → α) (c : G2engine) :
    (G2engine.standardMethod ec xc ev d res c).ret = res c := rfl

@[simp]
theorem engine_std_state_isTrace {α : Type} (ec xc ev : Nat) (d : DetailsMap)
    (res : G2engine → α) (c : G2engine) :
    (G2engine.standardMethod ec xc ev d res c).state.isTrace = c.isTrace := by
  simp [G2engine.standardMethod]

@[simp]
theorem engine_std_state_observers {α : Type} (ec xc ev : Nat) (d : DetailsMap)
    (res : G2engine → α) (c : G2engine) :
    (G2engine.standardMethod ec xc ev d res c).state.observers = c.observers := by
  simp [G2engine.standardMethod]

theorem engine_std_trace_off {α : Type} (ec xc ev : Nat) (d : DetailsMap)
    (res : G2engine → α) (c : G2engine) (h : c.isTrace = false) :
    (G2engine.standardMethod ec xc ev d res c).trace = [] := by
  simp [G2engine.standardMethod, h]

theorem engine_std_notifies {α : Type} (ec xc ev : Nat) (d : DetailsMap)
    (res : G2engine → α) (c : G2engine) :
    (G2engine.standardMethod ec xc ev d res c).notifies =
      match c.observers with
      | some registry => [⟨ev, none, d, registry⟩]
      | none => [] := by
  simp only [G2engine.standardMethod, engine_traceInit_observers]

@[simp]
theorem cfg_traceInit_isTrace (c : G2configmgr) :
    (G2configmgr.traceInit c).isTrace = c.isTrace := by
  unfold G2configmgr.traceInit G2configmgr.getLogger
  split
  · cases h : c.logger <;> simp [h]
  · rfl

@[simp]
theorem cfg_traceInit_observers (c : G2configmgr) :
    (G2configmgr.traceInit c).observers = c.observers := by
  unfold G2configmgr.traceInit G2configmgr.getLogger
  split
  · cases h : c.logger <;> simp [h]
  · rfl

theorem cfg_traceInit_logger_of_some (c : G2configmgr) (lg : MessageLogger)
    (h : c.logger = some lg) : (G2configmgr.traceInit c).logger = some lg := by
  unfold G2configmgr.traceInit G2configmgr.getLogger
  split
  · simp [h]
  · exact h

@[simp]
theorem cfg_std_err {α : Type} (ec xc ev : Nat) (d : DetailsMap)
    (res : G2configmgr → α) (c : G2configmgr) :
    (G2configmgr.standardMethod ec xc ev d res c).err = none := rfl

@[simp]
theorem cfg_std_ret {α : Type} (ec xc ev : Nat) (d : DetailsMap)
    (res : G2configmgr → α) (c : G2configmgr) :
    (G2configmgr.standardMethod ec xc ev d res c).ret = res c := rfl

@[simp]
theorem cfg_std_state_isTrace {α : Type} (ec xc ev : Nat) (d : DetailsMap)
    (res : G2configmgr → α) (c : G2configmgr) :
    (G2configmgr.standardMethod ec xc ev d res c).state.isTrace = c.isTrace := by
  simp [G2configmgr.standardMethod]

@[simp]
theorem cfg_std_state_observers {α : Type} (ec xc ev : Nat) (d : DetailsMap)
    (res : G2configmgr → α) (c : G2configmgr) :
    (G2configmgr.standardMethod ec xc ev d res c).state.observers = c.observers := by
  simp [G2configmgr.standardMethod]

theorem cfg_std_trace_off {α : Type} (ec xc ev : Nat) (d : DetailsMap)
    (res : G2configmgr → α) (c : G2configmgr) (h : c.isTrace = false) :
    (G2configmgr.standardMethod ec xc ev d res c).trace = [] := by
  simp [G2configmgr.standardMethod, h]

theorem cfg_std_notifies {α : Type} (ec xc ev : Nat) (d : DetailsMap)
    (res : G2configmgr → α) (c : G2configmgr) :
    (G2configmgr.standardMethod ec xc ev d res c).notifies =
      match c.observers with
      | some registry => [⟨ev, none, d, registry⟩]
      | none => [] := by
  simp only [G2configmgr.standardMethod, cfg_traceInit_observers]

@[simp]
theorem prod_traceInit_isTrace (c : G2product) :
    (G2product.traceInit c).isTrace = c.isTrace := by
  unfold G2product.traceInit G2product.getLogger
  split
  · cases h : c.logger <;> simp [h]
  · rfl

@[simp]
theorem prod_traceInit_observers (c : G2product) :
    (G2product.traceInit c).observers = c.observers := by
  unfold G2product.traceInit G2product.getLogger
  split
  · cases h : c.logger <;> simp [h]
  · rfl

theorem prod_traceInit_logger_of_some (c : G2product) (lg : MessageLogger)
    (h : c.logger = some lg) : (G2product.traceInit c).logger = some lg := by
  unfold G2product.traceInit G2product.getLogger
  split
  · simp [h]
  · exact h

@[simp]
theorem prod_std_err {α : Type} (ec xc ev : Nat) (d : DetailsMap)
    (res : G2product → α) (c : G2product) :
    (G2product.standardMethod ec xc ev d res c).err = none := rfl

@[simp]
theorem prod_std_ret {α : Type} (ec xc ev : Nat) (d : DetailsMap)
    (res : G2product → α) (c : G2product) :
    (G2product.standardMethod ec xc ev d res c).ret = res c := rfl

@[simp]
theorem prod_std_state_isTrace {α : Type} (ec xc ev : Nat) (d : DetailsMap)
    (res : G2product → α) (c : G2product) :
    (G2product.standardMethod ec xc ev d res c).state.isTrace = c.isTrace := by
  simp [G2product.standardMethod]

@[simp]
theorem prod_std_state_observers {α : Type} (ec xc ev : Nat) (d : DetailsMap)
    (res : G2product → α) (c : G2product) :
    (G2product.standardMethod ec xc ev d res c).state.observers = c.observers := by
  simp [G2product.standardMethod]

theorem prod_std_trace_off {α : Type} (ec xc ev : Nat) (d : DetailsMap)
    (res : G2product → α) (c : G2product) (h : c.isTrace = false) :
    (G2product.standardMethod ec xc ev d res c).trace = [] := by
  simp [G2product.standardMethod, h]

theorem prod_std_notifies {α : Type} (ec xc ev : Nat) (d : DetailsMap)
    (res : G2product → α) (c : G2product) :
    (G2product.standardMethod ec xc ev d res c).notifies =
      match c.observers with
      | some registry => [⟨ev, none, d, registry⟩]
      | none => [] := by
  simp only [G2product.standardMethod, prod_traceInit_observers]

@[simp]
theorem engine_register_err (c : G2engine) (o : Observer) :
    (G2engine.RegisterObserver c o).err = none := rfl

@[simp]
theorem engine_register_state_isTrace (c : G2engine) (o : Observer) :
    (G2engine.RegisterObserver c o).state.isTrace = c.isTrace := by
  simp [G2engine.RegisterObserver]

@[simp]
theorem engine_register_state_observers (c : G2engine) (o : Observer) :
    (G2engine.RegisterObserver c o).state.observers =
      some ((c.observers.getD []).registerObserver o) := by
  simp [G2engine.RegisterObserver]

theorem engine_register_trace_off (c : G2engine) (o : Observer)
    (h : c.isTrace = false) : (G2engine.RegisterObserver c o).trace = [] := by
  simp [G2engine.RegisterObserver, h]

theorem engine_register_notifies (c : G2engine) (o : Observer) :
    (G2engine.RegisterObserver c o).notifies =
      [⟨8076, none, [("observerID", o)], (c.observers.getD []).registerObserver o⟩] := by
  simp [G2engine.RegisterObserver]

theorem engine_unregister_none (c : G2engine) (o : Observer)
    (h : c.observers = none) : G2engine.UnregisterObserver c o = none := by
  simp only [G2engine.UnregisterObserver, engine_traceInit_observers, h]

theorem engine_unregister_err (c : G2engine) (o : Observer) :
    ((G2engine.UnregisterObserver c o).map Res.err).getD none = none := by
  simp only [G2engine.UnregisterObserver, engine_traceInit_observers]
  cases c.observers <;> simp

theorem engine_unregister_state_isTrace (c : G2engine) (o : Observer) :
    ((G2engine.UnregisterObserver c o).map (fun r => r.state.isTrace)).getD c.isTrace
      = c.isTrace := by
  simp only [G2engine.UnregisterObserver, engine_traceInit_observers]
  cases c.observers <;> simp

theorem engine_unregister_wf (c : G2engine) (o : Observer) :
    (G2engine.UnregisterObserver c o).elim True
      (fun r => wfObservers r.state.observers) := by
  simp only [G2engine.UnregisterObserver, engine_traceInit_observers]
  cases c.observers with
  | none => simp
  | some registry =>
    simp only [Option.elim]
    simp only [engine_traceInit_observers]
    split
    · rename_i hne
      simp [wfObservers]
      intro hcontra
      rw [hcontra] at hne
      simp [Subject.hasObservers] at hne
    · simp [wfObservers]

theorem engine_unregister_trace_off (c : G2engine) (o : Observer)
    (h : c.isTrace = false) :
    (G2engine.UnregisterObserver c o).elim True (fun r => r.trace = []) := by
  simp only [G2engine.UnregisterObserver, engine_traceInit_observers, h]
  cases c.observers <;> simp [h]

theorem engine_unregister_of_some (c : G2engine) (registry : Subject)
    (o : Observer) (h : c.observers = some registry) :
    (G2engine.UnregisterObserver c o).elim False (fun r =>
      r.notifies = [⟨8078, none, [("observerID", o)], registry⟩] ∧
      r.state.observers =
        (if (registry.unregisterObserver o).hasObservers
         then some (registry.unregisterObserver o) else none)) := by
  simp only [G2engine.UnregisterObserver, engine_traceInit_observers, h]
  simp

@[simp]
theorem engine_setLogLevel_err (c : G2engine) (l : Level) :
    (G2engine.SetLogLevel c l).err = none := rfl

theorem engine_setLogLevel_state_isTrace (c : G2engine) (l : Level) :
    (G2engine.SetLogLevel c l).state.isTrace = (l == Level.trace) := by
  simp [G2engine.SetLogLevel, G2engine.getLogger,
        MessageLogger.setLogLevel, MessageLogger.getLogLevel]

theorem engine_setLogLevel_state_loggerLevel (c : G2engine) (l : Level) :
    ((G2engine.getLogger (G2engine.SetLogLevel c l).state).2).getLogLevel = l := by
  simp only [G2engine.SetLogLevel]
  rw [G2engine.getLogger, engine_traceInit_logger_of_some _ _ rfl]
  simp [MessageLogger.setLogLevel, MessageLogger.getLogLevel]

theorem engine_setLogLevel_state_observers (c : G2engine) (l : Level) :
    (G2engine.SetLogLevel c l).state.observers = c.observers := by
  simp [G2engine.SetLogLevel]

theorem engine_setLogLevel_trace_off (c : G2engine) (l : Level)
    (h : c.isTrace = false) :
    (G2engine.SetLogLevel c l).trace = if l = Level.trace then [138] else [] := by
  simp only [G2engine.SetLogLevel]
  by_cases hl : l = Level.trace <;>
    simp [h, hl, G2engine.getLogger, MessageLogger.setLogLevel, MessageLogger.getLogLevel]

@[simp]
theorem cfg_getLogger_fst_isTrace (c : G2configmgr) :
    (G2configmgr.getLogger c).1.isTrace = c.isTrace := by
  unfold G2configmgr.getLogger
  cases h : c.logger <;> simp [h]

@[simp]
theorem cfg_getLogger_fst_observers (c : G2configmgr) :
    (G2configmgr.getLogger c).1.observers = c.observers := by
  unfold G2configmgr.getLogger
  cases h : c.logger <;> simp [h]

@[simp]
theorem cfg_register_err (c : G2configmgr) (o : Observer) :
    (G2configmgr.RegisterObserver c o).err = none := rfl

@[simp]
theorem cfg_register_state_isTrace (c : G2configmgr) (o : Observer) :
    (G2configmgr.RegisterObserver c o).state.isTrace = c.isTrace := by
  simp [G2configmgr.RegisterObserver]

@[simp]
theorem cfg_register_state_observers (c : G2configmgr) (o : Observer) :
    (G2configmgr.RegisterObserver c o).state.observers =
      some ((c.observers.getD []).registerObserver o) := by
  simp [G2configmgr.RegisterObserver]

theorem cfg_register_trace_off (c : G2configmgr) (o : Observer)
    (h : c.isTrace = false) : (G2configmgr.RegisterObserver c o).trace = [] := by
  simp [G2configmgr.RegisterObserver, h]

theorem cfg_register_notifies (c : G2configmgr) (o : Observer) :
    (G2configmgr.RegisterObserver c o).notifies =
      [⟨8010, none, [("observerID", o)], (c.observers.getD []).registerObserver o⟩] := by
  simp [G2configmgr.RegisterObserver]

theorem cfg_unregister_none (c : G2configmgr) (o : Observer)
    (h : c.observers = none) : G2configmgr.UnregisterObserver c o = none := by
  simp only [G2configmgr.UnregisterObserver, cfg_traceInit_observers, h]

theorem cfg_unregister_err (c : G2configmgr) (o : Observer) :
    ((G2configmgr.UnregisterObserver c o).map Res.err).getD none = none := by
  simp only [G2configmgr.UnregisterObserver, cfg_traceInit_observers]
  cases c.observers <;> simp

theorem cfg_unregister_state_isTrace (c : G2configmgr) (o : Observer) :
    ((G2configmgr.UnregisterObserver c o).map (fun r => r.state.isTrace)).getD c.isTrace
      = c.isTrace := by
  simp only [G2configmgr.UnregisterObserver, cfg_traceInit_observers]
  cases c.observers <;> simp

theorem cfg_unregister_wf (c : G2configmgr) (o : Observer) :
    (G2configmgr.UnregisterObserver c o).elim True
      (fun r => wfObservers r.state.observers) := by
  simp only [G2configmgr.UnregisterObserver, cfg_traceInit_observers]
  cases c.observers with
  | none => simp
  | some registry =>
    simp only [Option.elim]
    simp only [cfg_traceInit_observers]
    split
    · rename_i hne
      simp [wfObservers]
      intro hcontra
      rw [hcontra] at hne
      simp [Subject.hasObservers] at hne
    · simp [wfObservers]

theorem cfg_unregister_trace_off (c : G2configmgr) (o : Observer)
    (h : c.isTrace = false) :
    (G2configmgr.UnregisterObserver c o).elim True (fun r => r.trace = []) := by
  simp only [G2configmgr.UnregisterObserver, cfg_traceInit_observers, h]
  cases c.observers <;> simp [h]

theorem cfg_unregister_of_some (c : G2configmgr) (registry : Subject)
    (o : Observer) (h : c.observers = some registry) :
    (G2configmgr.UnregisterObserver c o).elim False (fun r =>
      r.notifies = [⟨8012, none, [("observerID", o)], registry⟩] ∧
      r.state.observers =
        (if (registry.unregisterObserver o).hasObservers
         then some (registry.unregisterObserver o) else none)) := by
  simp only [G2configmgr.UnregisterObserver, cfg_traceInit_observers, h]
  simp

@[simp]
theorem cfg_setLogLevel_err (c : G2configmgr) (l : Level) :
    (G2configmgr.SetLogLevel c l).err = none := rfl

theorem cfg_setLogLevel_state_isTrace (c : G2configmgr) (l : Level) :
    (G2configmgr.SetLogLevel c l).state.isTrace = (l == Level.trace) := by
  simp [G2configmgr.SetLogLevel, G2configmgr.getLogger,
        MessageLogger.setLogLevel, MessageLogger.getLogLevel]

theorem cfg_setLogLevel_state_loggerLevel (c : G2configmgr) (l : Level) :
    ((G2configmgr.getLogger (G2configmgr.SetLogLevel c l).state).2).getLogLevel = l := by
  simp only [G2configmgr.SetLogLevel]
  rw [G2configmgr.getLogger, cfg_traceInit_logger_of_some _ _ rfl]
  simp [MessageLogger.setLogLevel, MessageLogger.getLogLevel]

theorem cfg_setLogLevel_state_observers (c : G2configmgr) (l : Level) :
    (G2configmgr.SetLogLevel c l).state.observers = c.observers := by
  simp [G2configmgr.SetLogLevel]

theorem cfg_setLogLevel_trace_off (c : G2configmgr) (l : Level)
    (h : c.isTrace = false) :
    (G2configmgr.SetLogLevel c l).trace = if l = Level.trace then [24] else [] := by
  simp only [G2configmgr.SetLogLevel]
  by_cases hl : l = Level.trace <;>
    simp [h, hl, G2configmgr.getLogger, MessageLogger.setLogLevel, MessageLogger.getLogLevel]

@[simp]
theorem prod_getLogger_fst_isTrace (c : G2product) :
    (G2product.getLogger c).1.isTrace = c.isTrace := by
  unfold G2product.getLogger
  cases h : c.logger <;> simp [h]

@[simp]
theorem prod_getLogger_fst_observers (c : G2product) :
    (G2product.getLogger c).1.observers = c.observers := by
  unfold G2product.getLogger
  cases h : c.logger <;> simp [h]

@[simp]
theorem prod_register_err (c : G2product) (o : Observer) :
    (G2product.RegisterObserver c o).err = none := rfl

@[simp]
theorem prod_register_state_isTrace (c : G2product) (o : Observer) :
    (G2product.RegisterObserver c o).state.isTrace = c.isTrace := by
  simp [G2product.RegisterObserver]

@[simp]
theorem prod_register_state_observers (c : G2product) (o : Observer) :
    (G2product.RegisterObserver c o).state.observers =
      some ((c.observers.getD []).registerObserver o) := by
  simp [G2product.RegisterObserver]

theorem prod_register_trace_off (c : G2product) (o : Observer)
    (h : c.isTrace = false) : (G2product.RegisterObserver c o).trace = [] := by
  simp [G2product.RegisterObserver, h]

theorem prod_register_notifies (c : G2product) (o : Observer) :
    (G2product.RegisterObserver c o).notifies =
      [⟨8008, none, [("observerID", o)], (c.observers.getD []).registerObserver o⟩] := by
  simp [G2product.RegisterObserver]

theorem prod_unregister_none (c : G2product) (o : Observer)
    (h : c.observers = none) : G2product.UnregisterObserver c o = none := by
  simp only [G2product.UnregisterObserver, prod_traceInit_observers, h]

theorem prod_unregister_err (c : G2product) (o : Observer) :
    ((G2product.UnregisterObserver c o).map Res.err).getD none = none := by
  simp only [G2product.UnregisterObserver, prod_traceInit_observers]
  cases c.observers <;> simp

theorem prod_unregister_state_isTrace (c : G2product) (o : Observer) :
    ((G2product.UnregisterObserver c o).map (fun r => r.state.isTrace)).getD c.isTrace
      = c.isTrace := by
  simp only [G2product.UnregisterObserver, prod_traceInit_observers]
  cases c.observers <;> simp

theorem prod_unregister_wf (c : G2product) (o : Observer) :
    (G2product.UnregisterObserver c o).elim True
      (fun r => wfObservers r.state.observers) := by
  simp only [G2product.UnregisterObserver, prod_traceInit_observers]
  cases c.observers with
  | none => simp
  | some registry =>
    simp only [Option.elim]
    simp only [prod_traceInit_observers]
    split
    · rename_i hne
      simp [wfObservers]
      intro hcontra
      rw [hcontra] at hne
      simp [Subject.hasObservers] at hne
    · simp [wfObservers]

theorem prod_unregister_trace_off (c : G2product) (o : Observer)
    (h : c.isTrace = false) :
    (G2product.UnregisterObserver c o).elim True (fun r => r.trace = []) := by
  simp only [G2product.UnregisterObserver, prod_traceInit_observers, h]
  cases c.observers <;> simp [h]

theorem prod_unregister_of_some (c : G2product) (registry : Subject)
    (o : Observer) (h : c.observers = some registry) :
    (G2product.UnregisterObserver c o).elim False (fun r =>
      r.notifies = [⟨8010, none, [("observerID", o)], registry⟩] ∧
      r.state.observers =
        (if (registry.unregisterObserver o).hasObservers
         then some (registry.unregisterObserver o) else none)) := by
  simp only [G2product.UnregisterObserver, prod_traceInit_observers, h]
  simp

@[simp]
theorem prod_setLogLevel_err (c : G2product) (l : Level) :
    (G2product.SetLogLevel c l).err = none := rfl

theorem prod_setLogLevel_state_isTrace (c : G2product) (l : Level) :
    (G2product.SetLogLevel c l).state.isTrace = (l == Level.trace) := by
  simp [G2product.SetLogLevel, G2product.getLogger,
        MessageLogger.setLogLevel, MessageLogger.getLogLevel]

theorem prod_setLogLevel_state_loggerLevel (c : G2product) (l : Level) :
    ((G2product.getLogger (G2product.SetLogLevel c l).state).2).getLogLevel = l := by
  simp only [G2product.SetLogLevel]
  rw [G2product.getLogger, prod_traceInit_logger_of_some _ _ rfl]
  simp [MessageLogger.setLogLevel, MessageLogger.getLogLevel]

theorem prod_setLogLevel_state_observers (c : G2product) (l : Level) :
    (G2product.SetLogLevel c l).state.observers = c.observers := by
  simp [G2product.SetLogLevel]

theorem prod_setLogLevel_trace_off (c : G2product) (l : Level)
    (h : c.isTrace = false) :
    (G2product.SetLogLevel c l).trace = if l = Level.trace then [14] else [] := by
  simp only [G2product.SetLogLevel]
  by_cases hl : l = Level.trace <;>
    simp [h, hl, G2product.getLogger, MessageLogger.setLogLevel, MessageLogger.getLogLevel]


-- ---------------------------------------------------------------------------
-- Map-lookup and miscellaneous helper lemmas
-- ---------------------------------------------------------------------------

theorem mapLookup_mapInsert (q k v : String) (m : DetailsMap) :
    mapLookup q (mapInsert k v m) = if q = k then some v else mapLookup q m := by
  induction m with
  | nil =>
    by_cases h : q = k
    · simp [mapInsert, mapLookup, h]
    · have hk : ¬ (k = q) := fun hh => h hh.symm
      simp [mapInsert, mapLookup, h, hk]
  | cons p t ih =>
    by_cases hp : p.1 = k
    · by_cases hq : q = k
      · subst hq
        simp [mapInsert, mapLookup, hp]
      · have hk : ¬ (k = q) := fun hh => hq hh.symm
        have hpq : ¬ (p.1 = q) := by rw [hp]; exact hk
        simp [mapInsert, mapLookup, hp, hq, hk, hpq]
    · by_cases hq : q = k
      · subst hq
        simp [mapInsert, mapLookup, hp, ih]
      · simp [mapInsert, mapLookup, hp, hq, ih]

@[simp]
theorem wfObservers_none : wfObservers none := by
  simp [wfObservers]

@[simp]
theorem wfObservers_some (r : Subject) : wfObservers (some r) ↔ r ≠ [] := by
  simp [wfObservers]

/-- After removal, the removed observer is in neither branch of the
clear-to-nil transition. -/
theorem not_mem_unregister (registry : Subject) (o : Observer) :
    o ∉ ((if (Subject.unregisterObserver registry o).hasObservers
          then some (Subject.unregisterObserver registry o) else none).getD []) := by
  split
  · simp [Subject.unregisterObserver]
  · simp

theorem level_beq_trace_iff (l : Level) :
    ((l == Level.trace) = true) ↔ l = Level.trace := by
  cases l <;> decide

attribute [simp] engine_setLogLevel_state_observers cfg_setLogLevel_state_observers
  prod_setLogLevel_state_observers

attribute [simp]
  G2engine.AddRecord
  G2engine.AddRecordWithInfo
  G2engine.AddRecordWithInfoWithReturnedRecordID
  G2engine.AddRecordWithReturnedRecordID
  G2engine.CheckRecord
  G2engine.CloseExport
  G2engine.CountRedoRecords
  G2engine.DeleteRecord
  G2engine.DeleteRecordWithInfo
  G2engine.Destroy
  G2engine.ExportConfig
  G2engine.ExportConfigAndConfigID
  G2engine.ExportCSVEntityReport
  G2engine.ExportJSONEntityReport
  G2engine.FetchNext
  G2engine.FindInterestingEntitiesByEntityID
  G2engine.FindInterestingEntitiesByRecordID
  G2engine.FindNetworkByEntityID
  G2engine.FindNetworkByEntityID_V2
  G2engine.FindNetworkByRecordID
  G2engine.FindNetworkByRecordID_V2
  G2engine.FindPathByEntityID
  G2engine.FindPathByEntityID_V2
  G2engine.FindPathByRecordID
  G2engine.FindPathByRecordID_V2
  G2engine.FindPathExcludingByEntityID
  G2engine.FindPathExcludingByEntityID_V2
  G2engine.FindPathExcludingByRecordID
  G2engine.FindPathExcludingByRecordID_V2
  G2engine.FindPathIncludingSourceByEntityID
  G2engine.FindPathIncludingSourceByEntityID_V2
  G2engine.FindPathIncludingSourceByRecordID
  G2engine.FindPathIncludingSourceByRecordID_V2
  G2engine.GetActiveConfigID
  G2engine.GetEntityByEntityID
  G2engine.GetEntityByEntityID_V2
  G2engine.GetEntityByRecordID
  G2engine.GetEntityByRecordID_V2
  G2engine.GetRecord
  G2engine.GetRecord_V2
  G2engine.GetRedoRecord
  G2engine.GetRepositoryLastModifiedTime
  G2engine.GetSdkId
  G2engine.GetVirtualEntityByRecordID
  G2engine.GetVirtualEntityByRecordID_V2
  G2engine.HowEntityByEntityID
  G2engine.HowEntityByEntityID_V2
  G2engine.Init
  G2engine.InitWithConfigID
  G2engine.PrimeEngine
  G2engine.Process
  G2engine.ProcessRedoRecord
  G2engine.ProcessRedoRecordWithInfo
  G2engine.ProcessWithInfo
  G2engine.ProcessWithResponse
  G2engine.ProcessWithResponseResize
  G2engine.PurgeRepository
  G2engine.ReevaluateEntity
  G2engine.ReevaluateEntityWithInfo
  G2engine.ReevaluateRecord
  G2engine.ReevaluateRecordWithInfo
  G2engine.Reinit
  G2engine.ReplaceRecord
  G2engine.ReplaceRecordWithInfo
  G2engine.SearchByAttributes
  G2engine.SearchByAttributes_V2
  G2engine.Stats
  G2engine.WhyEntities
  G2engine.WhyEntities_V2
  G2engine.WhyEntityByEntityID
  G2engine.WhyEntityByEntityID_V2
  G2engine.WhyEntityByRecordID
  G2engine.WhyEntityByRecordID_V2
  G2engine.WhyRecords
  G2engine.WhyRecords_V2
  G2configmgr.AddConfig
  G2configmgr.Destroy
  G2configmgr.GetConfig
  G2configmgr.GetConfigList
  G2configmgr.GetDefaultConfigID
  G2configmgr.GetSdkId
  G2configmgr.Init
  G2configmgr.ReplaceDefaultConfigID
  G2configmgr.SetDefaultConfigID
  G2product.Destroy
  G2product.GetSdkId
  G2product.Init
  G2product.License
  G2product.ValidateLicenseFile
  G2product.ValidateLicenseStringBase64
  G2product.Version

-- ---------------------------------------------------------------------------
-- Concrete states and the per-client notification event-id tables
-- ---------------------------------------------------------------------------

/-- An engine client with two registered observers. -/
def engineObs2 : G2engine := { observers := some ["O1", "O2"] }

/-- A configuration-manager client with two registered observers. -/
def cfgObs2 : G2configmgr := { observers := some ["O1", "O2"] }

/-- A configuration-manager client with one registered observer. -/
def cfgObs1 : G2configmgr := { observers := some ["O1"] }

/-- A product client with two registered observers. -/
def prodObs2 : G2product := { observers := some ["O1", "O2"] }

/-- The notification event id of each `G2engine` method, read off by
executing the method on an observed client (method order of this file). -/
def engineEventIds : List Nat :=
  [evId (G2engine.AddRecord engineObs2 "" "" "" ""),
   evId (G2engine.AddRecordWithInfo engineObs2 "" "" "" "" 0),
   evId (G2engine.AddRecordWithInfoWithReturnedRecordID engineObs2 "" "" "" 0),
   evId (G2engine.AddRecordWithReturnedRecordID engineObs2 "" "" ""),
   evId (G2engine.CheckRecord engineObs2 "" ""),
   evId (G2engine.CloseExport engineObs2 0),
   evId (G2engine.CountRedoRecords engineObs2),
   evId (G2engine.DeleteRecord engineObs2 "" "" ""),
   evId (G2engine.DeleteRecordWithInfo engineObs2 "" "" "" 0),
   evId (G2engine.Destroy engineObs2),
   evId (G2engine.ExportConfig engineObs2),
   evId (G2engine.ExportConfigAndConfigID engineObs2),
   evId (G2engine.ExportCSVEntityReport engineObs2 "" 0),
   evId (G2engine.ExportJSONEntityReport engineObs2 0),
   evId (G2engine.FetchNext engineObs2 0),
   evId (G2engine.FindInterestingEntitiesByEntityID engineObs2 0 0),
   evId (G2engine.FindInterestingEntitiesByRecordID engineObs2 "" "" 0),
   evId (G2engine.FindNetworkByEntityID engineObs2 "" 0 0 0),
   evId (G2engine.FindNetworkByEntityID_V2 engineObs2 "" 0 0 0 0),
   evId (G2engine.FindNetworkByRecordID engineObs2 "" 0 0 0),
   evId (G2engine.FindNetworkByRecordID_V2 engineObs2 "" 0 0 0 0),
   evId (G2engine.FindPathByEntityID engineObs2 0 0 0),
   evId (G2engine.FindPathByEntityID_V2 engineObs2 0 0 0 0),
   evId (G2engine.FindPathByRecordID engineObs2 "" "" "" "" 0),
   evId (G2engine.FindPathByRecordID_V2 engineObs2 "" "" "" "" 0 0),
   evId (G2engine.FindPathExcludingByEntityID engineObs2 0 0 0 ""),
   evId (G2engine.FindPathExcludingByEntityID_V2 engineObs2 0 0 0 "" 0),
   evId (G2engine.FindPathExcludingByRecordID engineObs2 "" "" "" "" 0 ""),
   evId (G2engine.FindPathExcludingByRecordID_V2 engineObs2 "" "" "" "" 0 "" 0),
   evId (G2engine.FindPathIncludingSourceByEntityID engineObs2 0 0 0 "" ""),
   evId (G2engine.FindPathIncludingSourceByEntityID_V2 engineObs2 0 0 0 "" "" 0),
   evId (G2engine.FindPathIncludingSourceByRecordID engineObs2 "" "" "" "" 0 "" ""),
   evId (G2engine.FindPathIncludingSourceByRecordID_V2 engineObs2 "" "" "" "" 0 "" "" 0),
   evId (G2engine.GetActiveConfigID engineObs2),
   evId (G2engine.GetEntityByEntityID engineObs2 0),
   evId (G2engine.GetEntityByEntityID_V2 engineObs2 0 0),
   evId (G2engine.GetEntityByRecordID engineObs2 "" ""),
   evId (G2engine.GetEntityByRecordID_V2 engineObs2 "" "" 0),
   evId (G2engine.GetRecord engineObs2 "" ""),
   evId (G2engine.GetRecord_V2 engineObs2 "" "" 0),
   evId (G2engine.GetRedoRecord engineObs2),
   evId (G2engine.GetRepositoryLastModifiedTime engineObs2),
   evId (G2engine.GetSdkId engineObs2),
   evId (G2engine.GetVirtualEntityByRecordID engineObs2 ""),
   evId (G2engine.GetVirtualEntityByRecordID_V2 engineObs2 "" 0),
   evId (G2engine.HowEntityByEntityID engineObs2 0),
   evId (G2engine.HowEntityByEntityID_V2 engineObs2 0 0),
   evId (G2engine.Init engineObs2 "" "" 0),
   evId (G2engine.InitWithConfigID engineObs2 "" "" 0 0),
   evId (G2engine.PrimeEngine engineObs2),
   evId (G2engine.Process engineObs2 ""),
   evId (G2engine.ProcessRedoRecord engineObs2),
   evId (G2engine.ProcessRedoRecordWithInfo engineObs2 0),
   evId (G2engine.ProcessWithInfo engineObs2 "" 0),
   evId (G2engine.ProcessWithResponse engineObs2 ""),
   evId (G2engine.ProcessWithResponseResize engineObs2 ""),
   evId (G2engine.PurgeRepository engineObs2),
   evId (G2engine.ReevaluateEntity engineObs2 0 0),
   evId (G2engine.ReevaluateEntityWithInfo engineObs2 0 0),
   evId (G2engine.ReevaluateRecord engineObs2 "" "" 0),
   evId (G2engine.ReevaluateRecordWithInfo engineObs2 "" "" 0),
   evId (G2engine.RegisterObserver engineObs2 "Ox"),
   evId (G2engine.Reinit engineObs2 0),
   evId (G2engine.ReplaceRecord engineObs2 "" "" "" ""),
   evId (G2engine.ReplaceRecordWithInfo engineObs2 "" "" "" "" 0),
   evId (G2engine.SearchByAttributes engineObs2 ""),
   evId (G2engine.SearchByAttributes_V2 engineObs2 "" 0),
   evId (G2engine.SetLogLevel engineObs2 Level.debug),
   evId (G2engine.Stats engineObs2),
   ((G2engine.UnregisterObserver engineObs2 "Ox").map evId).getD 0,
   evId (G2engine.WhyEntities engineObs2 0 0),
   evId (G2engine.WhyEntities_V2 engineObs2 0 0 0),
   evId (G2engine.WhyEntityByEntityID engineObs2 0),
   evId (G2engine.WhyEntityByEntityID_V2 engineObs2 0 0),
   evId (G2engine.WhyEntityByRecordID engineObs2 "" ""),
   evId (G2engine.WhyEntityByRecordID_V2 engineObs2 "" "" 0),
   evId (G2engine.WhyRecords engineObs2 "" "" "" ""),
   evId (G2engine.WhyRecords_V2 engineObs2 "" "" "" "" 0)]

/-- The notification event id of each `G2configmgr` method. -/
def cfgEventIds : List Nat :=
  [evId (G2configmgr.AddConfig cfgObs2 "" ""),
   evId (G2configmgr.Destroy cfgObs2),
   evId (G2configmgr.GetConfig cfgObs2 0),
   evId (G2configmgr.GetConfigList cfgObs2),
   evId (G2configmgr.GetDefaultConfigID cfgObs2),
   evId (G2configmgr.GetSdkId cfgObs2),
   evId (G2configmgr.Init cfgObs2 "" "" 0),
   evId (G2configmgr.RegisterObserver cfgObs2 "Ox"),
   evId (G2configmgr.ReplaceDefaultConfigID cfgObs2 0 0),
   evId (G2configmgr.SetDefaultConfigID cfgObs2 0),
   evId (G2configmgr.SetLogLevel cfgObs2 Level.debug),
   ((G2configmgr.UnregisterObserver cfgObs2 "Ox").map evId).getD 0]

/-- The notification event id of each `G2product` method. -/
def prodEventIds : List Nat :=
  [evId (G2product.Destroy prodObs2),
   evId (G2product.GetSdkId prodObs2),
   evId (G2product.Init prodObs2 "" "" 0),
   evId (G2product.License prodObs2),
   evId (G2product.RegisterObserver prodObs2 "Ox"),
   evId (G2product.SetLogLevel prodObs2 Level.debug),
   ((G2product.UnregisterObserver prodObs2 "Ox").map evId).getD 0,
   evId (G2product.ValidateLicenseFile prodObs2 ""),
   evId (G2product.ValidateLicenseStringBase64 prodObs2 ""),
   evId (G2product.Version prodObs2)]

/-- The engine's 78 event ids are pairwise distinct. -/
theorem engine_event_ids_nodup : engineEventIds.Nodup := by
  have h : engineEventIds = [8001, 8002, 8003, 8004, 8005, 8006, 8007, 8008, 8009, 8010, 8011, 8012, 8013, 8014, 8015, 8016, 8017, 8018, 8019, 8020, 8021, 8022, 8023, 8024, 8025, 8026, 8027, 8028, 8029, 8030, 8031, 8032, 8033, 8034, 8035, 8036, 8037, 8038, 8039, 8040, 8041, 8042, 8075, 8043, 8044, 8045, 8046, 8047, 8048, 8049, 8050, 8051, 8052, 8053, 8054, 8055, 8056, 8057, 8058, 8059, 8060, 8076, 8061, 8062, 8063, 8064, 8065, 8077, 8066, 8078, 8067, 8068, 8069, 8070, 8071, 8072, 8073, 8074] := rfl
  rw [h]
  decide

/-- The product client's 10 event ids are pairwise distinct. -/
theorem prod_event_ids_nodup : prodEventIds.Nodup := by
  have h : prodEventIds = [8001, 8007, 8002, 8003, 8008, 8009, 8010, 8004, 8005, 8006] := rfl
  rw [h]
  decide

/-- The configuration manager's event ids are NOT pairwise distinct:
`GetSdkId` and `RegisterObserver` both use 8010 (8009 is unused). -/
theorem cfg_event_ids_not_nodup : ¬ cfgEventIds.Nodup := by
  have h : cfgEventIds = [8001, 8002, 8003, 8004, 8005, 8010, 8006, 8010, 8007, 8008, 8011, 8012] := rfl
  rw [h]
  decide

-- ---------------------------------------------------------------------------
-- The claims
-- ---------------------------------------------------------------------------

/-- C1: the claim states that calling `UnregisterObserver` with no registry
present is a safe no-op that returns without dereferencing the absent
registry. Evaluating the code on a zero-value client (observers nil)
instead reaches the unconditional `client.observers.UnregisterObserver`
call on the nil `Subject` interface — a nil-dereference panic, modelled as
`none` — for each of the three clients. -/
theorem spec_c1 :
    G2engine.UnregisterObserver {} "O1" = none ∧
    G2configmgr.UnregisterObserver {} "O1" = none ∧
    G2product.UnregisterObserver {} "O1" = none :=
  ⟨rfl, rfl, rfl⟩

/-- C2: the claim states that within each capability group the notification
event ids are pairwise distinct. Evaluating the `G2configmgr` code shows
`GetSdkId` and `RegisterObserver` both notify with event id 8010 (and the
group's event id list is therefore not duplicate-free), contradicting the
claim; the sibling clients (and the skipped id 8009) show this to be a
copy-paste slip in the code. -/
theorem spec_c2 :
    evId (G2configmgr.GetSdkId cfgObs1) = 8010 ∧
    evId (G2configmgr.RegisterObserver cfgObs1 "O2") = 8010 ∧
    ¬ cfgEventIds.Nodup :=
  ⟨rfl, rfl, cfg_event_ids_not_nodup⟩

/-- C3: for every operation returning a single string or int64 result,
setting the operation's canned field to `V` makes the operation return
exactly `V` with a nil error, and on a zero-value client the operation
returns the zero value of the field's type with a nil error. -/
theorem spec_c3 :
    (∀ (s : G2engine) (V : String) (a : String) (b : String) (c : String) (d : String) (f : Int), ((G2engine.AddRecordWithInfo { s with AddRecordWithInfoResult := V } a b c d f).ret, (G2engine.AddRecordWithInfo { s with AddRecordWithInfoResult := V } a b c d f).err) = (V, none)) ∧
    (∀ (a : String) (b : String) (c : String) (d : String) (f : Int), ((G2engine.AddRecordWithInfo {} a b c d f).ret, (G2engine.AddRecordWithInfo {} a b c d f).err) = ("", none)) ∧
    (∀ (s : G2engine) (V : String) (a : String) (b : String) (c : String), ((G2engine.AddRecordWithReturnedRecordID { s with AddRecordWithReturnedRecordIDResult := V } a b c).ret, (G2engine.AddRecordWithReturnedRecordID { s with AddRecordWithReturnedRecordIDResult := V } a b c).err) = (V, none)) ∧
    (∀ (a : String) (b : String) (c : String), ((G2engine.AddRecordWithReturnedRecordID {} a b c).ret, (G2engine.AddRecordWithReturnedRecordID {} a b c).err) = ("", none)) ∧
    (∀ (s : G2engine) (V : String) (a : String) (b : String), ((G2engine.CheckRecord { s with CheckRecordResult := V } a b).ret, (G2engine.CheckRecord { s with CheckRecordResult := V } a b).err) = (V, none)) ∧
    (∀ (a : String) (b : String), ((G2engine.CheckRecord {} a b).ret, (G2engine.CheckRecord {} a b).err) = ("", none)) ∧
    (∀ (s : G2engine) (V : Int), ((G2engine.CountRedoRecords { s with CountRedoRecordsResult := V }).ret, (G2engine.CountRedoRecords { s with CountRedoRecordsResult := V }).err) = (V, none)) ∧
    (((G2engine.CountRedoRecords {}).ret, (G2engine.CountRedoRecords {}).err) = (0, none)) ∧
    (∀ (s : G2engine) (V : String) (a : String) (b : String) (c : String) (f : Int), ((G2engine.DeleteRecordWithInfo { s with DeleteRecordWithInfoResult := V } a b c f).ret, (G2engine.DeleteRecordWithInfo { s with DeleteRecordWithInfoResult := V } a b c f).err) = (V, none)) ∧
    (∀ (a : String) (b : String) (c : String) (f : Int), ((G2engine.DeleteRecordWithInfo {} a b c f).ret, (G2engine.DeleteRecordWithInfo {} a b c f).err) = ("", none)) ∧
    (∀ (s : G2engine) (V : String), ((G2engine.ExportConfig { s with ExportConfigResult := V }).ret, (G2engine.ExportConfig { s with ExportConfigResult := V }).err) = (V, none)) ∧
    (((G2engine.ExportConfig {}).ret, (G2engine.ExportConfig {}).err) = ("", none)) ∧
    (∀ (s : G2engine) (V : String) (q : Nat), ((G2engine.FetchNext { s with FetchNextResult := V } q).ret, (G2engine.FetchNext { s with FetchNextResult := V } q).err) = (V, none)) ∧
    (∀ (q : Nat), ((G2engine.FetchNext {} q).ret, (G2engine.FetchNext {} q).err) = ("", none)) ∧
    (∀ (s : G2engine) (V : String) (e : Int) (f : Int), ((G2engine.FindInterestingEntitiesByEntityID { s with FindInterestingEntitiesByEntityIDResult := V } e f).ret, (G2engine.FindInterestingEntitiesByEntityID { s with FindInterestingEntitiesByEntityIDResult := V } e f).err) = (V, none)) ∧
    (∀ (e : Int) (f : Int), ((G2engine.FindInterestingEntitiesByEntityID {} e f).ret, (G2engine.FindInterestingEntitiesByEntityID {} e f).err) = ("", none)) ∧
    (∀ (s : G2engine) (V : String) (a : String) (b : String) (f : Int), ((G2engine.FindInterestingEntitiesByRecordID { s with FindInterestingEntitiesByRecordIDResult := V } a b f).ret, (G2engine.FindInterestingEntitiesByRecordID { s with FindInterestingEntitiesByRecordIDResult := V } a b f).err) = (V, none)) ∧
    (∀ (a : String) (b : String) (f : Int), ((G2engine.FindInterestingEntitiesByRecordID {} a b f).ret, (G2engine.FindInterestingEntitiesByRecordID {} a b f).err) = ("", none)) ∧
    (∀ (s : G2engine) (V : String) (a : String) (m : Int) (n : Int) (p : Int), ((G2engine.FindNetworkByEntityID { s with FindNetworkByEntityIDResult := V } a m n p).ret, (G2engine.FindNetworkByEntityID { s with FindNetworkByEntityIDResult := V } a m n p).err) = (V, none)) ∧
    (∀ (a : String) (m : Int) (n : Int) (p : Int), ((G2engine.FindNetworkByEntityID {} a m n p).ret, (G2engine.FindNetworkByEntityID {} a m n p).err) = ("", none)) ∧
    (∀ (s : G2engine) (V : String) (a : String) (m : Int) (n : Int) (p : Int) (f : Int), ((G2engine.FindNetworkByEntityID_V2 { s with FindNetworkByEntityID_V2Result := V } a m n p f).ret, (G2engine.FindNetworkByEntityID_V2 { s with FindNetworkByEntityID_V2Result := V } a m n p f).err) = (V, none)) ∧
    (∀ (a : String) (m : Int) (n : Int) (p : Int) (f : Int), ((G2engine.FindNetworkByEntityID_V2 {} a m n p f).ret, (G2engine.FindNetworkByEntityID_V2 {} a m n p f).err) = ("", none)) ∧
    (∀ (s : G2engine) (V : String) (a : String) (m : Int) (n : Int) (p : Int), ((G2engine.FindNetworkByRecordID { s with FindNetworkByRecordIDResult := V } a m n p).ret, (G2engine.FindNetworkByRecordID { s with FindNetworkByRecordIDResult := V } a m n p).err) = (V, none)) ∧
    (∀ (a : String) (m : Int) (n : Int) (p : Int), ((G2engine.FindNetworkByRecordID {} a m n p).ret, (G2engine.FindNetworkByRecordID {} a m n p).err) = ("", none)) ∧
    (∀ (s : G2engine) (V : String) (a : String) (m : Int) (n : Int) (p : Int) (f : Int), ((G2engine.FindNetworkByRecordID_V2 { s with FindNetworkByRecordID_V2Result := V } a m n p f).ret, (G2engine.FindNetworkByRecordID_V2 { s with FindNetworkByRecordID_V2Result := V } a m n p f).err) = (V, none)) ∧
    (∀ (a : String) (m : Int) (n : Int) (p : Int) (f : Int), ((G2engine.FindNetworkByRecordID_V2 {} a m n p f).ret, (G2engine.FindNetworkByRecordID_V2 {} a m n p f).err) = ("", none)) ∧
    (∀ (s : G2engine) (V : String) (e : Int) (g : Int) (m : Int), ((G2engine.FindPathByEntityID { s with FindPathByEntityIDResult := V } e g m).ret, (G2engine.FindPathByEntityID { s with FindPathByEntityIDResult := V } e g m).err) = (V, none)) ∧
    (∀ (e : Int) (g : Int) (m : Int), ((G2engine.FindPathByEntityID {} e g m).ret, (G2engine.FindPathByEntityID {} e g m).err) = ("", none)) ∧
    (∀ (s : G2engine) (V : String) (e : Int) (g : Int) (m : Int) (f : Int), ((G2engine.FindPathByEntityID_V2 { s with FindPathByEntityID_V2Result := V } e g m f).ret, (G2engine.FindPathByEntityID_V2 { s with FindPathByEntityID_V2Result := V } e g m f).err) = (V, none)) ∧
    (∀ (e : Int) (g : Int) (m : Int) (f : Int), ((G2engine.FindPathByEntityID_V2 {} e g m f).ret, (G2engine.FindPathByEntityID_V2 {} e g m f).err) = ("", none)) ∧
    (∀ (s : G2engine) (V : String) (a : String) (b : String) (c : String) (d : String) (m : Int), ((G2engine.FindPathByRecordID { s with FindPathByRecordIDResult := V } a b c d m).ret, (G2engine.FindPathByRecordID { s with FindPathByRecordIDResult := V } a b c d m).err) = (V, none)) ∧
    (∀ (a : String) (b : String) (c : String) (d : String) (m : Int), ((G2engine.FindPathByRecordID {} a b c d m).ret, (G2engine.FindPathByRecordID {} a b c d m).err) = ("", none)) ∧
    (∀ (s : G2engine) (V : String) (a : String) (b : String) (c : String) (d : String) (m : Int) (f : Int), ((G2engine.FindPathByRecordID_V2 { s with FindPathByRecordID_V2Result := V } a b c d m f).ret, (G2engine.FindPathByRecordID_V2 { s with FindPathByRecordID_V2Result := V } a b c d m f).err) = (V, none)) ∧
    (∀ (a : String) (b : String) (c : String) (d : String) (m : Int) (f : Int), ((G2engine.FindPathByRecordID_V2 {} a b c d m f).ret, (G2engine.FindPathByRecordID_V2 {} a b c d m f).err) = ("", none)) ∧
    (∀ (s : G2engine) (V : String) (e : Int) (g : Int) (m : Int) (x : String), ((G2engine.FindPathExcludingByEntityID { s with FindPathExcludingByEntityIDResult := V } e g m x).ret, (G2engine.FindPathExcludingByEntityID { s with FindPathExcludingByEntityIDResult := V } e g m x).err) = (V, none)) ∧
    (∀ (e : Int) (g : Int) (m : Int) (x : String), ((G2engine.FindPathExcludingByEntityID {} e g m x).ret, (G2engine.FindPathExcludingByEntityID {} e g m x).err) = ("", none)) ∧
    (∀ (s : G2engine) (V : String) (e : Int) (g : Int) (m : Int) (x : String) (f : Int), ((G2engine.FindPathExcludingByEntityID_V2 { s with FindPathExcludingByEntityID_V2Result := V } e g m x f).ret, (G2engine.FindPathExcludingByEntityID_V2 { s with FindPathExcludingByEntityID_V2Result := V } e g m x f).err) = (V, none)) ∧
    (∀ (e : Int) (g : Int) (m : Int) (x : String) (f : Int), ((G2engine.FindPathExcludingByEntityID_V2 {} e g m x f).ret, (G2engine.FindPathExcludingByEntityID_V2 {} e g m x f).err) = ("", none)) ∧
    (∀ (s : G2engine) (V : String) (a : String) (b : String) (c : String) (d : String) (m : Int) (x : String), ((G2engine.FindPathExcludingByRecordID { s with FindPathExcludingByRecordIDResult := V } a b c d m x).ret, (G2engine.FindPathExcludingByRecordID { s with FindPathExcludingByRecordIDResult := V } a b c d m x).err) = (V, none)) ∧
    (∀ (a : String) (b : String) (c : String) (d : String) (m : Int) (x : String), ((G2engine.FindPathExcludingByRecordID {} a b c d m x).ret, (G2engine.FindPathExcludingByRecordID {} a b c d m x).err) = ("", none)) ∧
    (∀ (s : G2engine) (V : String) (a : String) (b : String) (c : String) (d : String) (m : Int) (x : String) (f : Int), ((G2engine.FindPathExcludingByRecordID_V2 { s with FindPathExcludingByRecordID_V2Result := V } a b c d m x f).ret, (G2engine.FindPathExcludingByRecordID_V2 { s with FindPathExcludingByRecordID_V2Result := V } a b c d m x f).err) = (V, none)) ∧
    (∀ (a : String) (b : String) (c : String) (d : String) (m : Int) (x : String) (f : Int), ((G2engine.FindPathExcludingByRecordID_V2 {} a b c d m x f).ret, (G2engine.FindPathExcludingByRecordID_V2 {} a b c d m x f).err) = ("", none)) ∧
    (∀ (s : G2engine) (V : String) (e : Int) (g : Int) (m : Int) (x : String) (y : String), ((G2engine.FindPathIncludingSourceByEntityID { s with FindPathIncludingSourceByEntityIDResult := V } e g m x y).ret, (G2engine.FindPathIncludingSourceByEntityID { s with FindPathIncludingSourceByEntityIDResult := V } e g m x y).err) = (V, none)) ∧
    (∀ (e : Int) (g : Int) (m : Int) (x : String) (y : String), ((G2engine.FindPathIncludingSourceByEntityID {} e g m x y).ret, (G2engine.FindPathIncludingSourceByEntityID {} e g m x y).err) = ("", none)) ∧
    (∀ (s : G2engine) (V : String) (e : Int) (g : Int) (m : Int) (x : String) (y : String) (f : Int), ((G2engine.FindPathIncludingSourceByEntityID_V2 { s with FindPathIncludingSourceByEntityID_V2Result := V } e g m x y f).ret, (G2engine.FindPathIncludingSourceByEntityID_V2 { s with FindPathIncludingSourceByEntityID_V2Result := V } e g m x y f).err) = (V, none)) ∧
    (∀ (e : Int) (g : Int) (m : Int) (x : String) (y : String) (f : Int), ((G2engine.FindPathIncludingSourceByEntityID_V2 {} e g m x y f).ret, (G2engine.FindPathIncludingSourceByEntityID_V2 {} e g m x y f).err) = ("", none)) ∧
    (∀ (s : G2engine) (V : String) (a : String) (b : String) (c : String) (d : String) (m : Int) (x : String) (y : String), ((G2engine.FindPathIncludingSourceByRecordID { s with FindPathIncludingSourceByRecordIDResult := V } a b c d m x y).ret, (G2engine.FindPathIncludingSourceByRecordID { s with FindPathIncludingSourceByRecordIDResult := V } a b c d m x y).err) = (V, none)) ∧
    (∀ (a : String) (b : String) (c : String) (d : String) (m : Int) (x : String) (y : String), ((G2engine.FindPathIncludingSourceByRecordID {} a b c d m x y).ret, (G2engine.FindPathIncludingSourceByRecordID {} a b c d m x y).err) = ("", none)) ∧
    (∀ (s : G2engine) (V : String) (a : String) (b : String) (c : String) (d : String) (m : Int) (x : String) (y : String) (f : Int), ((G2engine.FindPathIncludingSourceByRecordID_V2 { s with FindPathIncludingSourceByRecordID_V2Result := V } a b c d m x y f).ret, (G2engine.FindPathIncludingSourceByRecordID_V2 { s with FindPathIncludingSourceByRecordID_V2Result := V } a b c d m x y f).err) = (V, none)) ∧
    (∀ (a : String) (b : String) (c : String) (d : String) (m : Int) (x : String) (y : String) (f : Int), ((G2engine.FindPathIncludingSourceByRecordID_V2 {} a b c d m x y f).ret, (G2engine.FindPathIncludingSourceByRecordID_V2 {} a b c d m x y f).err) = ("", none)) ∧
    (∀ (s : G2engine) (V : Int), ((G2engine.GetActiveConfigID { s with GetActiveConfigIDResult := V }).ret, (G2engine.GetActiveConfigID { s with GetActiveConfigIDResult := V }).err) = (V, none)) ∧
    (((G2engine.GetActiveConfigID {}).ret, (G2engine.GetActiveConfigID {}).err) = (0, none)) ∧
    (∀ (s : G2engine) (V : String) (e : Int), ((G2engine.GetEntityByEntityID { s with GetEntityByEntityIDResult := V } e).ret, (G2engine.GetEntityByEntityID { s with GetEntityByEntityIDResult := V } e).err) = (V, none)) ∧
    (∀ (e : Int), ((G2engine.GetEntityByEntityID {} e).ret, (G2engine.GetEntityByEntityID {} e).err) = ("", none)) ∧
    (∀ (s : G2engine) (V : String) (e : Int) (f : Int), ((G2engine.GetEntityByEntityID_V2 { s with GetEntityByEntityID_V2Result := V } e f).ret, (G2engine.GetEntityByEntityID_V2 { s with GetEntityByEntityID_V2Result := V } e f).err) = (V, none)) ∧
    (∀ (e : Int) (f : Int), ((G2engine.GetEntityByEntityID_V2 {} e f).ret, (G2engine.GetEntityByEntityID_V2 {} e f).err) = ("", none)) ∧
    (∀ (s : G2engine) (V : String) (a : String) (b : String), ((G2engine.GetEntityByRecordID { s with GetEntityByRecordIDResult := V } a b).ret, (G2engine.GetEntityByRecordID { s with GetEntityByRecordIDResult := V } a b).err) = (V, none)) ∧
    (∀ (a : String) (b : String), ((G2engine.GetEntityByRecordID {} a b).ret, (G2engine.GetEntityByRecordID {} a b).err) = ("", none)) ∧
    (∀ (s : G2engine) (V : String) (a : String) (b : String) (f : Int), ((G2engine.GetEntityByRecordID_V2 { s with GetEntityByRecordID_V2Result := V } a b f).ret, (G2engine.GetEntityByRecordID_V2 { s with GetEntityByRecordID_V2Result := V } a b f).err) = (V, none)) ∧
    (∀ (a : String) (b : String) (f : Int), ((G2engine.GetEntityByRecordID_V2 {} a b f).ret, (G2engine.GetEntityByRecordID_V2 {} a b f).err) = ("", none)) ∧
    (∀ (s : G2engine) (V : String) (a : String) (b : String), ((G2engine.GetRecord { s with GetRecordResult := V } a b).ret, (G2engine.GetRecord { s with GetRecordResult := V } a b).err) = (V, none)) ∧
    (∀ (a : String) (b : String), ((G2engine.GetRecord {} a b).ret, (G2engine.GetRecord {} a b).err) = ("", none)) ∧
    (∀ (s : G2engine) (V : String) (a : String) (b : String) (f : Int), ((G2engine.GetRecord_V2 { s with GetRecord_V2Result := V } a b f).ret, (G2engine.GetRecord_V2 { s with GetRecord_V2Result := V } a b f).err) = (V, none)) ∧
    (∀ (a : String) (b : String) (f : Int), ((G2engine.GetRecord_V2 {} a b f).ret, (G2engine.GetRecord_V2 {} a b f).err) = ("", none)) ∧
    (∀ (s : G2engine) (V : String), ((G2engine.GetRedoRecord { s with GetRedoRecordResult := V }).ret, (G2engine.GetRedoRecord { s with GetRedoRecordResult := V }).err) = (V, none)) ∧
    (((G2engine.GetRedoRecord {}).ret, (G2engine.GetRedoRecord {}).err) = ("", none)) ∧
    (∀ (s : G2engine) (V : Int), ((G2engine.GetRepositoryLastModifiedTime { s with GetRepositoryLastModifiedTimeResult := V }).ret, (G2engine.GetRepositoryLastModifiedTime { s with GetRepositoryLastModifiedTimeResult := V }).err) = (V, none)) ∧
    (((G2engine.GetRepositoryLastModifiedTime {}).ret, (G2engine.GetRepositoryLastModifiedTime {}).err) = (0, none)) ∧
    (∀ (s : G2engine) (V : String) (a : String), ((G2engine.GetVirtualEntityByRecordID { s with GetVirtualEntityByRecordIDResult := V } a).ret, (G2engine.GetVirtualEntityByRecordID { s with GetVirtualEntityByRecordIDResult := V } a).err) = (V, none)) ∧
    (∀ (a : String), ((G2engine.GetVirtualEntityByRecordID {} a).ret, (G2engine.GetVirtualEntityByRecordID {} a).err) = ("", none)) ∧
    (∀ (s : G2engine) (V : String) (a : String) (f : Int), ((G2engine.GetVirtualEntityByRecordID_V2 { s with GetVirtualEntityByRecordID_V2Result := V } a f).ret, (G2engine.GetVirtualEntityByRecordID_V2 { s with GetVirtualEntityByRecordID_V2Result := V } a f).err) = (V, none)) ∧
    (∀ (a : String) (f : Int), ((G2engine.GetVirtualEntityByRecordID_V2 {} a f).ret, (G2engine.GetVirtualEntityByRecordID_V2 {} a f).err) = ("", none)) ∧
    (∀ (s : G2engine) (V : String) (e : Int), ((G2engine.HowEntityByEntityID { s with HowEntityByEntityIDResult := V } e).ret, (G2engine.HowEntityByEntityID { s with HowEntityByEntityIDResult := V } e).err) = (V, none)) ∧
    (∀ (e : Int), ((G2engine.HowEntityByEntityID {} e).ret, (G2engine.HowEntityByEntityID {} e).err) = ("", none)) ∧
    (∀ (s : G2engine) (V : String) (e : Int) (f : Int), ((G2engine.HowEntityByEntityID_V2 { s with HowEntityByEntityID_V2Result := V } e f).ret, (G2engine.HowEntityByEntityID_V2 { s with HowEntityByEntityID_V2Result := V } e f).err) = (V, none)) ∧
    (∀ (e : Int) (f : Int), ((G2engine.HowEntityByEntityID_V2 {} e f).ret, (G2engine.HowEntityByEntityID_V2 {} e f).err) = ("", none)) ∧
    (∀ (s : G2engine) (V : String), ((G2engine.ProcessRedoRecord { s with ProcessRedoRecordResult := V }).ret, (G2engine.ProcessRedoRecord { s with ProcessRedoRecordResult := V }).err) = (V, none)) ∧
    (((G2engine.ProcessRedoRecord {}).ret, (G2engine.ProcessRedoRecord {}).err) = ("", none)) ∧
    (∀ (s : G2engine) (V : String) (a : String) (f : Int), ((G2engine.ProcessWithInfo { s with ProcessWithInfoResult := V } a f).ret, (G2engine.ProcessWithInfo { s with ProcessWithInfoResult := V } a f).err) = (V, none)) ∧
    (∀ (a : String) (f : Int), ((G2engine.ProcessWithInfo {} a f).ret, (G2engine.ProcessWithInfo {} a f).err) = ("", none)) ∧
    (∀ (s : G2engine) (V : String) (a : String), ((G2engine.ProcessWithResponse { s with ProcessWithResponseResult := V } a).ret, (G2engine.ProcessWithResponse { s with ProcessWithResponseResult := V } a).err) = (V, none)) ∧
    (∀ (a : String), ((G2engine.ProcessWithResponse {} a).ret, (G2engine.ProcessWithResponse {} a).err) = ("", none)) ∧
    (∀ (s : G2engine) (V : String) (a : String), ((G2engine.ProcessWithResponseResize { s with ProcessWithResponseResizeResult := V } a).ret, (G2engine.ProcessWithResponseResize { s with ProcessWithResponseResizeResult := V } a).err) = (V, none)) ∧
    (∀ (a : String), ((G2engine.ProcessWithResponseResize {} a).ret, (G2engine.ProcessWithResponseResize {} a).err) = ("", none)) ∧
    (∀ (s : G2engine) (V : String) (e : Int) (f : Int), ((G2engine.ReevaluateEntityWithInfo { s with ReevaluateEntityWithInfoResult := V } e f).ret, (G2engine.ReevaluateEntityWithInfo { s with ReevaluateEntityWithInfoResult := V } e f).err) = (V, none)) ∧
    (∀ (e : Int) (f : Int), ((G2engine.ReevaluateEntityWithInfo {} e f).ret, (G2engine.ReevaluateEntityWithInfo {} e f).err) = ("", none)) ∧
    (∀ (s : G2engine) (V : String) (a : String) (b : String) (f : Int), ((G2engine.ReevaluateRecordWithInfo { s with ReevaluateRecordWithInfoResult := V } a b f).ret, (G2engine.ReevaluateRecordWithInfo { s with ReevaluateRecordWithInfoResult := V } a b f).err) = (V, none)) ∧
    (∀ (a : String) (b : String) (f : Int), ((G2engine.ReevaluateRecordWithInfo {} a b f).ret, (G2engine.ReevaluateRecordWithInfo {} a b f).err) = ("", none)) ∧
    (∀ (s : G2engine) (V : String) (a : String) (b : String) (c : String) (d : String) (f : Int), ((G2engine.ReplaceRecordWithInfo { s with ReplaceRecordWithInfoResult := V } a b c d f).ret, (G2engine.ReplaceRecordWithInfo { s with ReplaceRecordWithInfoResult := V } a b c d f).err) = (V, none)) ∧
    (∀ (a : String) (b : String) (c : String) (d : String) (f : Int), ((G2engine.ReplaceRecordWithInfo {} a b c d f).ret, (G2engine.ReplaceRecordWithInfo {} a b c d f).err) = ("", none)) ∧
    (∀ (s : G2engine) (V : String) (a : String), ((G2engine.SearchByAttributes { s with SearchByAttributesResult := V } a).ret, (G2engine.SearchByAttributes { s with SearchByAttributesResult := V } a).err) = (V, none)) ∧
    (∀ (a : String), ((G2engine.SearchByAttributes {} a).ret, (G2engine.SearchByAttributes {} a).err) = ("", none)) ∧
    (∀ (s : G2engine) (V : String) (a : String) (f : Int), ((G2engine.SearchByAttributes_V2 { s with SearchByAttributes_V2Result := V } a f).ret, (G2engine.SearchByAttributes_V2 { s with SearchByAttributes_V2Result := V } a f).err) = (V, none)) ∧
    (∀ (a : String) (f : Int), ((G2engine.SearchByAttributes_V2 {} a f).ret, (G2engine.SearchByAttributes_V2 {} a f).err) = ("", none)) ∧
    (∀ (s : G2engine) (V : String), ((G2engine.Stats { s with StatsResult := V }).ret, (G2engine.Stats { s with StatsResult := V }).err) = (V, none)) ∧
    (((G2engine.Stats {}).ret, (G2engine.Stats {}).err) = ("", none)) ∧
    (∀ (s : G2engine) (V : String) (e : Int) (g : Int), ((G2engine.WhyEntities { s with WhyEntitiesResult := V } e g).ret, (G2engine.WhyEntities { s with WhyEntitiesResult := V } e g).err) = (V, none)) ∧
    (∀ (e : Int) (g : Int), ((G2engine.WhyEntities {} e g).ret, (G2engine.WhyEntities {} e g).err) = ("", none)) ∧
    (∀ (s : G2engine) (V : String) (e : Int) (g : Int) (f : Int), ((G2engine.WhyEntities_V2 { s with WhyEntities_V2Result := V } e g f).ret, (G2engine.WhyEntities_V2 { s with WhyEntities_V2Result := V } e g f).err) = (V, none)) ∧
    (∀ (e : Int) (g : Int) (f : Int), ((G2engine.WhyEntities_V2 {} e g f).ret, (G2engine.WhyEntities_V2 {} e g f).err) = ("", none)) ∧
    (∀ (s : G2engine) (V : String) (e : Int), ((G2engine.WhyEntityByEntityID { s with WhyEntityByEntityIDResult := V } e).ret, (G2engine.WhyEntityByEntityID { s with WhyEntityByEntityIDResult := V } e).err) = (V, none)) ∧
    (∀ (e : Int), ((G2engine.WhyEntityByEntityID {} e).ret, (G2engine.WhyEntityByEntityID {} e).err) = ("", none)) ∧
    (∀ (s : G2engine) (V : String) (e : Int) (f : Int), ((G2engine.WhyEntityByEntityID_V2 { s with WhyEntityByEntityID_V2Result := V } e f).ret, (G2engine.WhyEntityByEntityID_V2 { s with WhyEntityByEntityID_V2Result := V } e f).err) = (V, none)) ∧
    (∀ (e : Int) (f : Int), ((G2engine.WhyEntityByEntityID_V2 {} e f).ret, (G2engine.WhyEntityByEntityID_V2 {} e f).err) = ("", none)) ∧
    (∀ (s : G2engine) (V : String) (a : String) (b : String), ((G2engine.WhyEntityByRecordID { s with WhyEntityByRecordIDResult := V } a b).ret, (G2engine.WhyEntityByRecordID { s with WhyEntityByRecordIDResult := V } a b).err) = (V, none)) ∧
    (∀ (a : String) (b : String), ((G2engine.WhyEntityByRecordID {} a b).ret, (G2engine.WhyEntityByRecordID {} a b).err) = ("", none)) ∧
    (∀ (s : G2engine) (V : String) (a : String) (b : String) (f : Int), ((G2engine.WhyEntityByRecordID_V2 { s with WhyEntityByRecordID_V2Result := V } a b f).ret, (G2engine.WhyEntityByRecordID_V2 { s with WhyEntityByRecordID_V2Result := V } a b f).err) = (V, none)) ∧
    (∀ (a : String) (b : String) (f : Int), ((G2engine.WhyEntityByRecordID_V2 {} a b f).ret, (G2engine.WhyEntityByRecordID_V2 {} a b f).err) = ("", none)) ∧
    (∀ (s : G2engine) (V : String) (a : String) (b : String) (c : String) (d : String), ((G2engine.WhyRecords { s with WhyRecordsResult := V } a b c d).ret, (G2engine.WhyRecords { s with WhyRecordsResult := V } a b c d).err) = (V, none)) ∧
    (∀ (a : String) (b : String) (c : String) (d : String), ((G2engine.WhyRecords {} a b c d).ret, (G2engine.WhyRecords {} a b c d).err) = ("", none)) ∧
    (∀ (s : G2engine) (V : String) (a : String) (b : String) (c : String) (d : String) (f : Int), ((G2engine.WhyRecords_V2 { s with WhyRecords_V2Result := V } a b c d f).ret, (G2engine.WhyRecords_V2 { s with WhyRecords_V2Result := V } a b c d f).err) = (V, none)) ∧
    (∀ (a : String) (b : String) (c : String) (d : String) (f : Int), ((G2engine.WhyRecords_V2 {} a b c d f).ret, (G2engine.WhyRecords_V2 {} a b c d f).err) = ("", none)) ∧
    (∀ (s : G2configmgr) (V : Int) (a : String) (b : String), ((G2configmgr.AddConfig { s with AddConfigResult := V } a b).ret, (G2configmgr.AddConfig { s with AddConfigResult := V } a b).err) = (V, none)) ∧
    (∀ (a : String) (b : String), ((G2configmgr.AddConfig {} a b).ret, (G2configmgr.AddConfig {} a b).err) = (0, none)) ∧
    (∀ (s : G2configmgr) (V : String) (g : Int), ((G2configmgr.GetConfig { s with GetConfigResult := V } g).ret, (G2configmgr.GetConfig { s with GetConfigResult := V } g).err) = (V, none)) ∧
    (∀ (g : Int), ((G2configmgr.GetConfig {} g).ret, (G2configmgr.GetConfig {} g).err) = ("", none)) ∧
    (∀ (s : G2configmgr) (V : String), ((G2configmgr.GetConfigList { s with GetConfigListResult := V }).ret, (G2configmgr.GetConfigList { s with GetConfigListResult := V }).err) = (V, none)) ∧
    (((G2configmgr.GetConfigList {}).ret, (G2configmgr.GetConfigList {}).err) = ("", none)) ∧
    (∀ (s : G2configmgr) (V : Int), ((G2configmgr.GetDefaultConfigID { s with GetDefaultConfigIDResult := V }).ret, (G2configmgr.GetDefaultConfigID { s with GetDefaultConfigIDResult := V }).err) = (V, none)) ∧
    (((G2configmgr.GetDefaultConfigID {}).ret, (G2configmgr.GetDefaultConfigID {}).err) = (0, none)) ∧
    (∀ (s : G2product) (V : String), ((G2product.License { s with LicenseResult := V }).ret, (G2product.License { s with LicenseResult := V }).err) = (V, none)) ∧
    (((G2product.License {}).ret, (G2product.License {}).err) = ("", none)) ∧
    (∀ (s : G2product) (V : String) (a : String), ((G2product.ValidateLicenseFile { s with ValidateLicenseFileResult := V } a).ret, (G2product.ValidateLicenseFile { s with ValidateLicenseFileResult := V } a).err) = (V, none)) ∧
    (∀ (a : String), ((G2product.ValidateLicenseFile {} a).ret, (G2product.ValidateLicenseFile {} a).err) = ("", none)) ∧
    (∀ (s : G2product) (V : String) (a : String), ((G2product.ValidateLicenseStringBase64 { s with ValidateLicenseStringBase64Result := V } a).ret, (G2product.ValidateLicenseStringBase64 { s with ValidateLicenseStringBase64Result := V } a).err) = (V, none)) ∧
    (∀ (a : String), ((G2product.ValidateLicenseStringBase64 {} a).ret, (G2product.ValidateLicenseStringBase64 {} a).err) = ("", none)) ∧
    (∀ (s : G2product) (V : String), ((G2product.Version { s with VersionResult := V }).ret, (G2product.Version { s with VersionResult := V }).err) = (V, none)) ∧
    (((G2product.Version {}).ret, (G2product.Version {}).err) = ("", none)) := by
  repeat' apply And.intro
  all_goals intros
  all_goals rfl

/-- C4: every façade method returns a nil error on every input and state
(for `UnregisterObserver`, whenever it completes); the engine's and the
configuration manager's `GetSdkId` have no error return at all. -/
theorem spec_c4 :
    (∀ (s : G2engine) (a : String) (b : String) (c : String) (d : String), (G2engine.AddRecord s a b c d).err = none) ∧
    (∀ (s : G2engine) (a : String) (b : String) (c : String) (d : String) (f : Int), (G2engine.AddRecordWithInfo s a b c d f).err = none) ∧
    (∀ (s : G2engine) (a : String) (b : String) (c : String) (f : Int), (G2engine.AddRecordWithInfoWithReturnedRecordID s a b c f).err = none) ∧
    (∀ (s : G2engine) (a : String) (b : String) (c : String), (G2engine.AddRecordWithReturnedRecordID s a b c).err = none) ∧
    (∀ (s : G2engine) (a : String) (b : String), (G2engine.CheckRecord s a b).err = none) ∧
    (∀ (s : G2engine) (q : Nat), (G2engine.CloseExport s q).err = none) ∧
    (∀ (s : G2engine), (G2engine.CountRedoRecords s).err = none) ∧
    (∀ (s : G2engine) (a : String) (b : String) (c : String), (G2engine.DeleteRecord s a b c).err = none) ∧
    (∀ (s : G2engine) (a : String) (b : String) (c : String) (f : Int), (G2engine.DeleteRecordWithInfo s a b c f).err = none) ∧
    (∀ (s : G2engine), (G2engine.Destroy s).err = none) ∧
    (∀ (s : G2engine), (G2engine.ExportConfig s).err = none) ∧
    (∀ (s : G2engine), (G2engine.ExportConfigAndConfigID s).err = none) ∧
    (∀ (s : G2engine) (a : String) (f : Int), (G2engine.ExportCSVEntityReport s a f).err = none) ∧
    (∀ (s : G2engine) (f : Int), (G2engine.ExportJSONEntityReport s f).err = none) ∧
    (∀ (s : G2engine) (q : Nat), (G2engine.FetchNext s q).err = none) ∧
    (∀ (s : G2engine) (e : Int) (f : Int), (G2engine.FindInterestingEntitiesByEntityID s e f).err = none) ∧
    (∀ (s : G2engine) (a : String) (b : String) (f : Int), (G2engine.FindInterestingEntitiesByRecordID s a b f).err = none) ∧
    (∀ (s : G2engine) (a : String) (m : Int) (n : Int) (p : Int), (G2engine.FindNetworkByEntityID s a m n p).err = none) ∧
    (∀ (s : G2engine) (a : String) (m : Int) (n : Int) (p : Int) (f : Int), (G2engine.FindNetworkByEntityID_V2 s a m n p f).err = none) ∧
    (∀ (s : G2engine) (a : String) (m : Int) (n : Int) (p : Int), (G2engine.FindNetworkByRecordID s a m n p).err = none) ∧
    (∀ (s : G2engine) (a : String) (m : Int) (n : Int) (p : Int) (f : Int), (G2engine.FindNetworkByRecordID_V2 s a m n p f).err = none) ∧
    (∀ (s : G2engine) (e : Int) (g : Int) (m : Int), (G2engine.FindPathByEntityID s e g m).err = none) ∧
    (∀ (s : G2engine) (e : Int) (g : Int) (m : Int) (f : Int), (G2engine.FindPathByEntityID_V2 s e g m f).err = none) ∧
    (∀ (s : G2engine) (a : String) (b : String) (c : String) (d : String) (m : Int), (G2engine.FindPathByRecordID s a b c d m).err = none) ∧
    (∀ (s : G2engine) (a : String) (b : String) (c : String) (d : String) (m : Int) (f : Int), (G2engine.FindPathByRecordID_V2 s a b c d m f).err = none) ∧
    (∀ (s : G2engine) (e : Int) (g : Int) (m : Int) (x : String), (G2engine.FindPathExcludingByEntityID s e g m x).err = none) ∧
    (∀ (s : G2engine) (e : Int) (g : Int) (m : Int) (x : String) (f : Int), (G2engine.FindPathExcludingByEntityID_V2 s e g m x f).err = none) ∧
    (∀ (s : G2engine) (a : String) (b : String) (c : String) (d : String) (m : Int) (x : String), (G2engine.FindPathExcludingByRecordID s a b c d m x).err = none) ∧
    (∀ (s : G2engine) (a : String) (b : String) (c : String) (d : String) (m : Int) (x : String) (f : Int), (G2engine.FindPathExcludingByRecordID_V2 s a b c d m x f).err = none) ∧
    (∀ (s : G2engine) (e : Int) (g : Int) (m : Int) (x : String) (y : String), (G2engine.FindPathIncludingSourceByEntityID s e g m x y).err = none) ∧
    (∀ (s : G2engine) (e : Int) (g : Int) (m : Int) (x : String) (y : String) (f : Int), (G2engine.FindPathIncludingSourceByEntityID_V2 s e g m x y f).err = none) ∧
    (∀ (s : G2engine) (a : String) (b : String) (c : String) (d : String) (m : Int) (x : String) (y : String), (G2engine.FindPathIncludingSourceByRecordID s a b c d m x y).err = none) ∧
    (∀ (s : G2engine) (a : String) (b : String) (c : String) (d : String) (m : Int) (x : String) (y : String) (f : Int), (G2engine.FindPathIncludingSourceByRecordID_V2 s a b c d m x y f).err = none) ∧
    (∀ (s : G2engine), (G2engine.GetActiveConfigID s).err = none) ∧
    (∀ (s : G2engine) (e : Int), (G2engine.GetEntityByEntityID s e).err = none) ∧
    (∀ (s : G2engine) (e : Int) (f : Int), (G2engine.GetEntityByEntityID_V2 s e f).err = none) ∧
    (∀ (s : G2engine) (a : String) (b : String), (G2engine.GetEntityByRecordID s a b).err = none) ∧
    (∀ (s : G2engine) (a : String) (b : String) (f : Int), (G2engine.GetEntityByRecordID_V2 s a b f).err = none) ∧
    (∀ (s : G2engine) (a : String) (b : String), (G2engine.GetRecord s a b).err = none) ∧
    (∀ (s : G2engine) (a : String) (b : String) (f : Int), (G2engine.GetRecord_V2 s a b f).err = none) ∧
    (∀ (s : G2engine), (G2engine.GetRedoRecord s).err = none) ∧
    (∀ (s : G2engine), (G2engine.GetRepositoryLastModifiedTime s).err = none) ∧
    (∀ (s : G2engine) (a : String), (G2engine.GetVirtualEntityByRecordID s a).err = none) ∧
    (∀ (s : G2engine) (a : String) (f : Int), (G2engine.GetVirtualEntityByRecordID_V2 s a f).err = none) ∧
    (∀ (s : G2engine) (e : Int), (G2engine.HowEntityByEntityID s e).err = none) ∧
    (∀ (s : G2engine) (e : Int) (f : Int), (G2engine.HowEntityByEntityID_V2 s e f).err = none) ∧
    (∀ (s : G2engine) (a : String) (b : String) (v : Int), (G2engine.Init s a b v).err = none) ∧
    (∀ (s : G2engine) (a : String) (b : String) (g : Int) (v : Int), (G2engine.InitWithConfigID s a b g v).err = none) ∧
    (∀ (s : G2engine), (G2engine.PrimeEngine s).err = none) ∧
    (∀ (s : G2engine) (a : String), (G2engine.Process s a).err = none) ∧
    (∀ (s : G2engine), (G2engine.ProcessRedoRecord s).err = none) ∧
    (∀ (s : G2engine) (f : Int), (G2engine.ProcessRedoRecordWithInfo s f).err = none) ∧
    (∀ (s : G2engine) (a : String) (f : Int), (G2engine.ProcessWithInfo s a f).err = none) ∧
    (∀ (s : G2engine) (a : String), (G2engine.ProcessWithResponse s a).err = none) ∧
    (∀ (s : G2engine) (a : String), (G2engine.ProcessWithResponseResize s a).err = none) ∧
    (∀ (s : G2engine), (G2engine.PurgeRepository s).err = none) ∧
    (∀ (s : G2engine) (e : Int) (f : Int), (G2engine.ReevaluateEntity s e f).err = none) ∧
    (∀ (s : G2engine) (e : Int) (f : Int), (G2engine.ReevaluateEntityWithInfo s e f).err = none) ∧
    (∀ (s : G2engine) (a : String) (b : String) (f : Int), (G2engine.ReevaluateRecord s a b f).err = none) ∧
    (∀ (s : G2engine) (a : String) (b : String) (f : Int), (G2engine.ReevaluateRecordWithInfo s a b f).err = none) ∧
    (∀ (s : G2engine) (o : Observer), (G2engine.RegisterObserver s o).err = none) ∧
    (∀ (s : G2engine) (g : Int), (G2engine.Reinit s g).err = none) ∧
    (∀ (s : G2engine) (a : String) (b : String) (c : String) (d : String), (G2engine.ReplaceRecord s a b c d).err = none) ∧
    (∀ (s : G2engine) (a : String) (b : String) (c : String) (d : String) (f : Int), (G2engine.ReplaceRecordWithInfo s a b c d f).err = none) ∧
    (∀ (s : G2engine) (a : String), (G2engine.SearchByAttributes s a).err = none) ∧
    (∀ (s : G2engine) (a : String) (f : Int), (G2engine.SearchByAttributes_V2 s a f).err = none) ∧
    (∀ (s : G2engine) (l : Level), (G2engine.SetLogLevel s l).err = none) ∧
    (∀ (s : G2engine), (G2engine.Stats s).err = none) ∧
    (∀ (s : G2engine) (o : Observer), ((G2engine.UnregisterObserver s o).map Res.err).getD none = none) ∧
    (∀ (s : G2engine) (e : Int) (g : Int), (G2engine.WhyEntities s e g).err = none) ∧
    (∀ (s : G2engine) (e : Int) (g : Int) (f : Int), (G2engine.WhyEntities_V2 s e g f).err = none) ∧
    (∀ (s : G2engine) (e : Int), (G2engine.WhyEntityByEntityID s e).err = none) ∧
    (∀ (s : G2engine) (e : Int) (f : Int), (G2engine.WhyEntityByEntityID_V2 s e f).err = none) ∧
    (∀ (s : G2engine) (a : String) (b : String), (G2engine.WhyEntityByRecordID s a b).err = none) ∧
    (∀ (s : G2engine) (a : String) (b : String) (f : Int), (G2engine.WhyEntityByRecordID_V2 s a b f).err = none) ∧
    (∀ (s : G2engine) (a : String) (b : String) (c : String) (d : String), (G2engine.WhyRecords s a b c d).err = none) ∧
    (∀ (s : G2engine) (a : String) (b : String) (c : String) (d : String) (f : Int), (G2engine.WhyRecords_V2 s a b c d f).err = none) ∧
    (∀ (s : G2configmgr) (a : String) (b : String), (G2configmgr.AddConfig s a b).err = none) ∧
    (∀ (s : G2configmgr), (G2configmgr.Destroy s).err = none) ∧
    (∀ (s : G2configmgr) (g : Int), (G2configmgr.GetConfig s g).err = none) ∧
    (∀ (s : G2configmgr), (G2configmgr.GetConfigList s).err = none) ∧
    (∀ (s : G2configmgr), (G2configmgr.GetDefaultConfigID s).err = none) ∧
    (∀ (s : G2configmgr) (a : String) (b : String) (v : Int), (G2configmgr.Init s a b v).err = none) ∧
    (∀ (s : G2configmgr) (o : Observer), (G2configmgr.RegisterObserver s o).err = none) ∧
    (∀ (s : G2configmgr) (g : Int) (j : Int), (G2configmgr.ReplaceDefaultConfigID s g j).err = none) ∧
    (∀ (s : G2configmgr) (g : Int), (G2configmgr.SetDefaultConfigID s g).err = none) ∧
    (∀ (s : G2configmgr) (l : Level), (G2configmgr.SetLogLevel s l).err = none) ∧
    (∀ (s : G2configmgr) (o : Observer), ((G2configmgr.UnregisterObserver s o).map Res.err).getD none = none) ∧
    (∀ (s : G2product), (G2product.Destroy s).err = none) ∧
    (∀ (s : G2product), (G2product.GetSdkId s).err = none) ∧
    (∀ (s : G2product) (a : String) (b : String) (v : Int), (G2product.Init s a b v).err = none) ∧
    (∀ (s : G2product), (G2product.License s).err = none) ∧
    (∀ (s : G2product) (o : Observer), (G2product.RegisterObserver s o).err = none) ∧
    (∀ (s : G2product) (l : Level), (G2product.SetLogLevel s l).err = none) ∧
    (∀ (s : G2product) (o : Observer), ((G2product.UnregisterObserver s o).map Res.err).getD none = none) ∧
    (∀ (s : G2product) (a : String), (G2product.ValidateLicenseFile s a).err = none) ∧
    (∀ (s : G2product) (a : String), (G2product.ValidateLicenseStringBase64 s a).err = none) ∧
    (∀ (s : G2product), (G2product.Version s).err = none) := by
  repeat' apply And.intro
  all_goals intros
  all_goals first
    | rfl
    | exact engine_unregister_err _ _
    | exact cfg_unregister_err _ _
    | exact prod_unregister_err _ _

/-- C5: the shared `notify` helper builds exactly the map consisting of the
given context fields plus `subjectId` (the product id rendered in decimal),
`messageId` (the event id in decimal) and `messageTime` (the timestamp in
decimal), plus an `error` field holding the error text iff the error is
non-nil; the JSON serialization of that one map is published to every
registered observer (same single string, one delivery per observer). -/
theorem spec_c5 (productId : Int) (messageId : Nat) (now : Int)
    (err : Option String) (details : DetailsMap) (registry : Subject) :
    (∀ k, mapLookup k (notifyBuild productId messageId now err details) =
      match err with
      | some e =>
        if k = "error" then some e
        else if k = "messageTime" then some (toString now)
        else if k = "messageId" then some (toString messageId)
        else if k = "subjectId" then some (toString productId)
        else mapLookup k details
      | none =>
        if k = "messageTime" then some (toString now)
        else if k = "messageId" then some (toString messageId)
        else if k = "subjectId" then some (toString productId)
        else mapLookup k details) ∧
    (notifyPublish productId messageId now err details registry).map Prod.fst
      = registry ∧
    (notifyPublish productId messageId now err details registry).map Prod.snd
      = registry.map
          (fun _ => goJsonMarshal (notifyBuild productId messageId now err details)) := by
  refine ⟨?_, ?_, ?_⟩
  · intro k
    cases err <;> simp [notifyBuild, mapLookup_mapInsert]
  · induction registry with
    | nil => rfl
    | cons a t ih => simpa [notifyPublish] using ih
  · induction registry with
    | nil => rfl
    | cons a t ih => simpa [notifyPublish] using ih

/-- C6: the registry-shape invariant (the observers field is nil or
holds a non-empty registry) is preserved by every operation of every client:
`RegisterObserver` creates the registry before adding, and
`UnregisterObserver` clears the field to nil exactly when the registry
becomes empty. -/
theorem spec_c6 :
    (∀ (s : G2engine) (o : Observer), wfObservers s.observers → wfObservers ((G2engine.RegisterObserver s o).state.observers)) ∧
    (∀ (s : G2configmgr) (o : Observer), wfObservers s.observers → wfObservers ((G2configmgr.RegisterObserver s o).state.observers)) ∧
    (∀ (s : G2product) (o : Observer), wfObservers s.observers → wfObservers ((G2product.RegisterObserver s o).state.observers)) ∧
    (∀ (s : G2engine) (o : Observer), wfObservers s.observers → (G2engine.UnregisterObserver s o).elim True (fun r => wfObservers r.state.observers)) ∧
    (∀ (s : G2configmgr) (o : Observer), wfObservers s.observers → (G2configmgr.UnregisterObserver s o).elim True (fun r => wfObservers r.state.observers)) ∧
    (∀ (s : G2product) (o : Observer), wfObservers s.observers → (G2product.UnregisterObserver s o).elim True (fun r => wfObservers r.state.observers)) ∧
    (∀ (s : G2engine) (a : String) (b : String) (c : String) (d : String), wfObservers s.observers → wfObservers ((G2engine.AddRecord s a b c d).state.observers)) ∧
    (∀ (s : G2engine) (a : String) (b : String) (c : String) (d : String) (f : Int), wfObservers s.observers → wfObservers ((G2engine.AddRecordWithInfo s a b c d f).state.observers)) ∧
    (∀ (s : G2engine) (a : String) (b : String) (c : String) (f : Int), wfObservers s.observers → wfObservers ((G2engine.AddRecordWithInfoWithReturnedRecordID s a b c f).state.observers)) ∧
    (∀ (s : G2engine) (a : String) (b : String) (c : String), wfObservers s.observers → wfObservers ((G2engine.AddRecordWithReturnedRecordID s a b c).state.observers)) ∧
    (∀ (s : G2engine) (a : String) (b : String), wfObservers s.observers → wfObservers ((G2engine.CheckRecord s a b).state.observers)) ∧
    (∀ (s : G2engine) (q : Nat), wfObservers s.observers → wfObservers ((G2engine.CloseExport s q).state.observers)) ∧
    (∀ (s : G2engine), wfObservers s.observers → wfObservers ((G2engine.CountRedoRecords s).state.observers)) ∧
    (∀ (s : G2engine) (a : String) (b : String) (c : String), wfObservers s.observers → wfObservers ((G2engine.DeleteRecord s a b c).state.observers)) ∧
    (∀ (s : G2engine) (a : String) (b : String) (c : String) (f : Int), wfObservers s.observers → wfObservers ((G2engine.DeleteRecordWithInfo s a b c f).state.observers)) ∧
    (∀ (s : G2engine), wfObservers s.observers → wfObservers ((G2engine.Destroy s).state.observers)) ∧
    (∀ (s : G2engine), wfObservers s.observers → wfObservers ((G2engine.ExportConfig s).state.observers)) ∧
    (∀ (s : G2engine), wfObservers s.observers → wfObservers ((G2engine.ExportConfigAndConfigID s).state.observers)) ∧
    (∀ (s : G2engine) (a : String) (f : Int), wfObservers s.observers → wfObservers ((G2engine.ExportCSVEntityReport s a f).state.observers)) ∧
    (∀ (s : G2engine) (f : Int), wfObservers s.observers → wfObservers ((G2engine.ExportJSONEntityReport s f).state.observers)) ∧
    (∀ (s : G2engine) (q : Nat), wfObservers s.observers → wfObservers ((G2engine.FetchNext s q).state.observers)) ∧
    (∀ (s : G2engine) (e : Int) (f : Int), wfObservers s.observers → wfObservers ((G2engine.FindInterestingEntitiesByEntityID s e f).state.observers)) ∧
    (∀ (s : G2engine) (a : String) (b : String) (f : Int), wfObservers s.observers → wfObservers ((G2engine.FindInterestingEntitiesByRecordID s a b f).state.observers)) ∧
    (∀ (s : G2engine) (a : String) (m : Int) (n : Int) (p : Int), wfObservers s.observers → wfObservers ((G2engine.FindNetworkByEntityID s a m n p).state.observers)) ∧
    (∀ (s : G2engine) (a : String) (m : Int) (n : Int) (p : Int) (f : Int), wfObservers s.observers → wfObservers ((G2engine.FindNetworkByEntityID_V2 s a m n p f).state.observers)) ∧
    (∀ (s : G2engine) (a : String) (m : Int) (n : Int) (p : Int), wfObservers s.observers → wfObservers ((G2engine.FindNetworkByRecordID s a m n p).state.observers)) ∧
    (∀ (s : G2engine) (a : String) (m : Int) (n : Int) (p : Int) (f : Int), wfObservers s.observers → wfObservers ((G2engine.FindNetworkByRecordID_V2 s a m n p f).state.observers)) ∧
    (∀ (s : G2engine) (e : Int) (g : Int) (m : Int), wfObservers s.observers → wfObservers ((G2engine.FindPathByEntityID s e g m).state.observers)) ∧
    (∀ (s : G2engine) (e : Int) (g : Int) (m : Int) (f : Int), wfObservers s.observers → wfObservers ((G2engine.FindPathByEntityID_V2 s e g m f).state.observers)) ∧
    (∀ (s : G2engine) (a : String) (b : String) (c : String) (d : String) (m : Int), wfObservers s.observers → wfObservers ((G2engine.FindPathByRecordID s a b c d m).state.observers)) ∧
    (∀ (s : G2engine) (a : String) (b : String) (c : String) (d : String) (m : Int) (f : Int), wfObservers s.observers → wfObservers ((G2engine.FindPathByRecordID_V2 s a b c d m f).state.observers)) ∧
    (∀ (s : G2engine) (e : Int) (g : Int) (m : Int) (x : String), wfObservers s.observers → wfObservers ((G2engine.FindPathExcludingByEntityID s e g m x).state.observers)) ∧
    (∀ (s : G2engine) (e : Int) (g : Int) (m : Int) (x : String) (f : Int), wfObservers s.observers → wfObservers ((G2engine.FindPathExcludingByEntityID_V2 s e g m x f).state.observers)) ∧
    (∀ (s : G2engine) (a : String) (b : String) (c : String) (d : String) (m : Int) (x : String), wfObservers s.observers → wfObservers ((G2engine.FindPathExcludingByRecordID s a b c d m x).state.observers)) ∧
    (∀ (s : G2engine) (a : String) (b : String) (c : String) (d : String) (m : Int) (x : String) (f : Int), wfObservers s.observers → wfObservers ((G2engine.FindPathExcludingByRecordID_V2 s a b c d m x f).state.observers)) ∧
    (∀ (s : G2engine) (e : Int) (g : Int) (m : Int) (x : String) (y : String), wfObservers s.observers → wfObservers ((G2engine.FindPathIncludingSourceByEntityID s e g m x y).state.observers)) ∧
    (∀ (s : G2engine) (e : Int) (g : Int) (m : Int) (x : String) (y : String) (f : Int), wfObservers s.observers → wfObservers ((G2engine.FindPathIncludingSourceByEntityID_V2 s e g m x y f).state.observers)) ∧
    (∀ (s : G2engine) (a : String) (b : String) (c : String) (d : String) (m : Int) (x : String) (y : String), wfObservers s.observers → wfObservers ((G2engine.FindPathIncludingSourceByRecordID s a b c d m x y).state.observers)) ∧
    (∀ (s : G2engine) (a : String) (b : String) (c : String) (d : String) (m : Int) (x : String) (y : String) (f : Int), wfObservers s.observers → wfObservers ((G2engine.FindPathIncludingSourceByRecordID_V2 s a b c d m x y f).state.observers)) ∧
    (∀ (s : G2engine), wfObservers s.observers → wfObservers ((G2engine.GetActiveConfigID s).state.observers)) ∧
    (∀ (s : G2engine) (e : Int), wfObservers s.observers → wfObservers ((G2engine.GetEntityByEntityID s e).state.observers)) ∧
    (∀ (s : G2engine) (e : Int) (f : Int), wfObservers s.observers → wfObservers ((G2engine.GetEntityByEntityID_V2 s e f).state.observers)) ∧
    (∀ (s : G2engine) (a : String) (b : String), wfObservers s.observers → wfObservers ((G2engine.GetEntityByRecordID s a b).state.observers)) ∧
    (∀ (s : G2engine) (a : String) (b : String) (f : Int), wfObservers s.observers → wfObservers ((G2engine.GetEntityByRecordID_V2 s a b f).state.observers)) ∧
    (∀ (s : G2engine) (a : String) (b : String), wfObservers s.observers → wfObservers ((G2engine.GetRecord s a b).state.observers)) ∧
    (∀ (s : G2engine) (a : String) (b : String) (f : Int), wfObservers s.observers → wfObservers ((G2engine.GetRecord_V2 s a b f).state.observers)) ∧
    (∀ (s : G2engine), wfObservers s.observers → wfObservers ((G2engine.GetRedoRecord s).state.observers)) ∧
    (∀ (s : G2engine), wfObservers s.observers → wfObservers ((G2engine.GetRepositoryLastModifiedTime s).state.observers)) ∧
    (∀ (s : G2engine), wfObservers s.observers → wfObservers ((G2engine.GetSdkId s).state.observers)) ∧
    (∀ (s : G2engine) (a : String), wfObservers s.observers → wfObservers ((G2engine.GetVirtualEntityByRecordID s a).state.observers)) ∧
    (∀ (s : G2engine) (a : String) (f : Int), wfObservers s.observers → wfObservers ((G2engine.GetVirtualEntityByRecordID_V2 s a f).state.observers)) ∧
    (∀ (s : G2engine) (e : Int), wfObservers s.observers → wfObservers ((G2engine.HowEntityByEntityID s e).state.observers)) ∧
    (∀ (s : G2engine) (e : Int) (f : Int), wfObservers s.observers → wfObservers ((G2engine.HowEntityByEntityID_V2 s e f).state.observers)) ∧
    (∀ (s : G2engine) (a : String) (b : String) (v : Int), wfObservers s.observers → wfObservers ((G2engine.Init s a b v).state.observers)) ∧
    (∀ (s : G2engine) (a : String) (b : String) (g : Int) (v : Int), wfObservers s.observers → wfObservers ((G2engine.InitWithConfigID s a b g v).state.observers)) ∧
    (∀ (s : G2engine), wfObservers s.observers → wfObservers ((G2engine.PrimeEngine s).state.observers)) ∧
    (∀ (s : G2engine) (a : String), wfObservers s.observers → wfObservers ((G2engine.Process s a).state.observers)) ∧
    (∀ (s : G2engine), wfObservers s.observers → wfObservers ((G2engine.ProcessRedoRecord s).state.observers)) ∧
    (∀ (s : G2engine) (f : Int), wfObservers s.observers → wfObservers ((G2engine.ProcessRedoRecordWithInfo s f).state.observers)) ∧
    (∀ (s : G2engine) (a : String) (f : Int), wfObservers s.observers → wfObservers ((G2engine.ProcessWithInfo s a f).state.observers)) ∧
    (∀ (s : G2engine) (a : String), wfObservers s.observers → wfObservers ((G2engine.ProcessWithResponse s a).state.observers)) ∧
    (∀ (s : G2engine) (a : String), wfObservers s.observers → wfObservers ((G2engine.ProcessWithResponseResize s a).state.observers)) ∧
    (∀ (s : G2engine), wfObservers s.observers → wfObservers ((G2engine.PurgeRepository s).state.observers)) ∧
    (∀ (s : G2engine) (e : Int) (f : Int), wfObservers s.observers → wfObservers ((G2engine.ReevaluateEntity s e f).state.observers)) ∧
    (∀ (s : G2engine) (e : Int) (f : Int), wfObservers s.observers → wfObservers ((G2engine.ReevaluateEntityWithInfo s e f).state.observers)) ∧
    (∀ (s : G2engine) (a : String) (b : String) (f : Int), wfObservers s.observers → wfObservers ((G2engine.ReevaluateRecord s a b f).state.observers)) ∧
    (∀ (s : G2engine) (a : String) (b : String) (f : Int), wfObservers s.observers → wfObservers ((G2engine.ReevaluateRecordWithInfo s a b f).state.observers)) ∧
    (∀ (s : G2engine) (g : Int), wfObservers s.observers → wfObservers ((G2engine.Reinit s g).state.observers)) ∧
    (∀ (s : G2engine) (a : String) (b : String) (c : String) (d : String), wfObservers s.observers → wfObservers ((G2engine.ReplaceRecord s a b c d).state.observers)) ∧
    (∀ (s : G2engine) (a : String) (b : String) (c : String) (d : String) (f : Int), wfObservers s.observers → wfObservers ((G2engine.ReplaceRecordWithInfo s a b c d f).state.observers)) ∧
    (∀ (s : G2engine) (a : String), wfObservers s.observers → wfObservers ((G2engine.SearchByAttributes s a).state.observers)) ∧
    (∀ (s : G2engine) (a : String) (f : Int), wfObservers s.observers → wfObservers ((G2engine.SearchByAttributes_V2 s a f).state.observers)) ∧
    (∀ (s : G2engine) (l : Level), wfObservers s.observers → wfObservers ((G2engine.SetLogLevel s l).state.observers)) ∧
    (∀ (s : G2engine), wfObservers s.observers → wfObservers ((G2engine.Stats s).state.observers)) ∧
    (∀ (s : G2engine) (e : Int) (g : Int), wfObservers s.observers → wfObservers ((G2engine.WhyEntities s e g).state.observers)) ∧
    (∀ (s : G2engine) (e : Int) (g : Int) (f : Int), wfObservers s.observers → wfObservers ((G2engine.WhyEntities_V2 s e g f).state.observers)) ∧
    (∀ (s : G2engine) (e : Int), wfObservers s.observers → wfObservers ((G2engine.WhyEntityByEntityID s e).state.observers)) ∧
    (∀ (s : G2engine) (e : Int) (f : Int), wfObservers s.observers → wfObservers ((G2engine.WhyEntityByEntityID_V2 s e f).state.observers)) ∧
    (∀ (s : G2engine) (a : String) (b : String), wfObservers s.observers → wfObservers ((G2engine.WhyEntityByRecordID s a b).state.observers)) ∧
    (∀ (s : G2engine) (a : String) (b : String) (f : Int), wfObservers s.observers → wfObservers ((G2engine.WhyEntityByRecordID_V2 s a b f).state.observers)) ∧
    (∀ (s : G2engine) (a : String) (b : String) (c : String) (d : String), wfObservers s.observers → wfObservers ((G2engine.WhyRecords s a b c d).state.observers)) ∧
    (∀ (s : G2engine) (a : String) (b : String) (c : String) (d : String) (f : Int), wfObservers s.observers → wfObservers ((G2engine.WhyRecords_V2 s a b c d f).state.observers)) ∧
    (∀ (s : G2configmgr) (a : String) (b : String), wfObservers s.observers → wfObservers ((G2configmgr.AddConfig s a b).state.observers)) ∧
    (∀ (s : G2configmgr), wfObservers s.observers → wfObservers ((G2configmgr.Destroy s).state.observers)) ∧
    (∀ (s : G2configmgr) (g : Int), wfObservers s.observers → wfObservers ((G2configmgr.GetConfig s g).state.observers)) ∧
    (∀ (s : G2configmgr), wfObservers s.observers → wfObservers ((G2configmgr.GetConfigList s).state.observers)) ∧
    (∀ (s : G2configmgr), wfObservers s.observers → wfObservers ((G2configmgr.GetDefaultConfigID s).state.observers)) ∧
    (∀ (s : G2configmgr), wfObservers s.observers → wfObservers ((G2configmgr.GetSdkId s).state.observers)) ∧
    (∀ (s : G2configmgr) (a : String) (b : String) (v : Int), wfObservers s.observers → wfObservers ((G2configmgr.Init s a b v).state.observers)) ∧
    (∀ (s : G2configmgr) (g : Int) (j : Int), wfObservers s.observers → wfObservers ((G2configmgr.ReplaceDefaultConfigID s g j).state.observers)) ∧
    (∀ (s : G2configmgr) (g : Int), wfObservers s.observers → wfObservers ((G2configmgr.SetDefaultConfigID s g).state.observers)) ∧
    (∀ (s : G2configmgr) (l : Level), wfObservers s.observers → wfObservers ((G2configmgr.SetLogLevel s l).state.observers)) ∧
    (∀ (s : G2product), wfObservers s.observers → wfObservers ((G2product.Destroy s).state.observers)) ∧
    (∀ (s : G2product), wfObservers s.observers → wfObservers ((G2product.GetSdkId s).state.observers)) ∧
    (∀ (s : G2product) (a : String) (b : String) (v : Int), wfObservers s.observers → wfObservers ((G2product.Init s a b v).state.observers)) ∧
    (∀ (s : G2product), wfObservers s.observers → wfObservers ((G2product.License s).state.observers)) ∧
    (∀ (s : G2product) (l : Level), wfObservers s.observers → wfObservers ((G2product.SetLogLevel s l).state.observers)) ∧
    (∀ (s : G2product) (a : String), wfObservers s.observers → wfObservers ((G2product.ValidateLicenseFile s a).state.observers)) ∧
    (∀ (s : G2product) (a : String), wfObservers s.observers → wfObservers ((G2product.ValidateLicenseStringBase64 s a).state.observers)) ∧
    (∀ (s : G2product), wfObservers s.observers → wfObservers ((G2product.Version s).state.observers)) := by
  repeat' apply And.intro
  all_goals intros
  all_goals first
    | exact engine_unregister_wf _ _
    | exact cfg_unregister_wf _ _
    | exact prod_unregister_wf _ _
    | (simp; exact registerObserver_ne_nil _ _)
    | simp_all

/-- C7: for a registered observer `O`, `UnregisterObserver O` fires its
notification (with `O`'s id in the details) to the pre-removal registry —
so `O` itself is among the recipients, i.e. the notification is issued
while `O` is still registered — and only the final state has `O` removed
(with the registry cleared to nil when it became empty). -/
theorem spec_c7 :
    (∀ (s : G2engine) (registry : Subject) (o : Observer),
      s.observers = some registry → o ∈ registry →
      (G2engine.UnregisterObserver s o).elim False (fun r =>
        r.notifies = [⟨8078, none, [("observerID", o)], registry⟩] ∧
        (∀ n ∈ r.notifies, o ∈ n.recipients) ∧
        r.state.observers =
          (if (Subject.unregisterObserver registry o).hasObservers
           then some (Subject.unregisterObserver registry o) else none) ∧
        o ∉ (r.state.observers.getD []))) ∧
    (∀ (s : G2configmgr) (registry : Subject) (o : Observer),
      s.observers = some registry → o ∈ registry →
      (G2configmgr.UnregisterObserver s o).elim False (fun r =>
        r.notifies = [⟨8012, none, [("observerID", o)], registry⟩] ∧
        (∀ n ∈ r.notifies, o ∈ n.recipients) ∧
        r.state.observers =
          (if (Subject.unregisterObserver registry o).hasObservers
           then some (Subject.unregisterObserver registry o) else none) ∧
        o ∉ (r.state.observers.getD []))) ∧
    (∀ (s : G2product) (registry : Subject) (o : Observer),
      s.observers = some registry → o ∈ registry →
      (G2product.UnregisterObserver s o).elim False (fun r =>
        r.notifies = [⟨8010, none, [("observerID", o)], registry⟩] ∧
        (∀ n ∈ r.notifies, o ∈ n.recipients) ∧
        r.state.observers =
          (if (Subject.unregisterObserver registry o).hasObservers
           then some (Subject.unregisterObserver registry o) else none) ∧
        o ∉ (r.state.observers.getD []))) := by
  refine ⟨?_, ?_, ?_⟩
  · intro s registry o h1 h2
    have hx := engine_unregister_of_some s registry o h1
    revert hx
    cases hE : G2engine.UnregisterObserver s o with
    | none => intro hx; exact hx.elim
    | some r =>
      intro hx
      simp only [Option.elim] at hx ⊢
      obtain ⟨ha, hb⟩ := hx
      refine ⟨ha, ?_, hb, ?_⟩
      · intro n hn
        rw [ha] at hn
        simp at hn
        rw [hn]
        exact h2
      · rw [hb]
        exact not_mem_unregister registry o
  · intro s registry o h1 h2
    have hx := cfg_unregister_of_some s registry o h1
    revert hx
    cases hE : G2configmgr.UnregisterObserver s o with
    | none => intro hx; exact hx.elim
    | some r =>
      intro hx
      simp only [Option.elim] at hx ⊢
      obtain ⟨ha, hb⟩ := hx
      refine ⟨ha, ?_, hb, ?_⟩
      · intro n hn
        rw [ha] at hn
        simp at hn
        rw [hn]
        exact h2
      · rw [hb]
        exact not_mem_unregister registry o
  · intro s registry o h1 h2
    have hx := prod_unregister_of_some s registry o h1
    revert hx
    cases hE : G2product.UnregisterObserver s o with
    | none => intro hx; exact hx.elim
    | some r =>
      intro hx
      simp only [Option.elim] at hx ⊢
      obtain ⟨ha, hb⟩ := hx
      refine ⟨ha, ?_, hb, ?_⟩
      · intro n hn
        rw [ha] at hn
        simp at hn
        rw [hn]
        exact h2
      · rw [hb]
        exact not_mem_unregister registry o

/-- C7 witness: unregistering `O1` from an engine client whose registry is
`[O1, O2]` notifies `[O1, O2]` (so `O1` itself) before removal, and the
final registry is `[O2]`. -/
theorem spec_c7_witness :
    (G2engine.UnregisterObserver engineObs2 "O1").elim False (fun r =>
      r.notifies = [⟨8078, none, [("observerID", "O1")], ["O1", "O2"]⟩] ∧
      (∀ n ∈ r.notifies, "O1" ∈ n.recipients) ∧
      r.state.observers =
        (if (Subject.unregisterObserver ["O1", "O2"] "O1").hasObservers
         then some (Subject.unregisterObserver ["O1", "O2"] "O1") else none) ∧
      "O1" ∉ (r.state.observers.getD [])) :=
  spec_c7.1 engineObs2 ["O1", "O2"] "O1" rfl (by simp)

/-- C8: `GetSdkId` returns the fixed literal mock-string on every client state
of every client (so it reads no canned-result field), and for `G2product`
the accompanying error is nil. -/
theorem spec_c8 :
    (∀ s : G2engine, (G2engine.GetSdkId s).ret = "mock") ∧
    (∀ s : G2configmgr, (G2configmgr.GetSdkId s).ret = "mock") ∧
    (∀ s : G2product,
      (G2product.GetSdkId s).ret = "mock" ∧ (G2product.GetSdkId s).err = none) :=
  ⟨fun _ => rfl, fun _ => rfl, fun _ => ⟨rfl, rfl⟩⟩

/-- C9 counterexample: on a zero-value engine client (tracing off),
`SetLogLevel(TRACE)` recomputes `isTrace` to true before the deferred
trace-exit gate, so a trace-exit event (code 138) IS emitted even though
`isTrace` was false when the operation was invoked — contradicting the
claim that no trace event is emitted when tracing is off at invocation. -/
theorem spec_c9_cex :
    ({} : G2engine).isTrace = false ∧
    (G2engine.SetLogLevel {} Level.trace).trace = [138] :=
  ⟨rfl, rfl⟩

set_option maxHeartbeats 1000000 in
/-- C9 (amended): for every operation other than `SetLogLevel`, an
invocation with `isTrace` false emits no trace-entry and no trace-exit
event; `SetLogLevel` invoked with `isTrace` false emits no trace-entry,
and emits exactly its trace-exit event iff the requested level is TRACE. -/
theorem spec_c9 :
    (∀ (s : G2engine) (l : Level), s.isTrace = false → (G2engine.SetLogLevel s l).trace = if l = Level.trace then [138] else []) ∧
    (∀ (s : G2configmgr) (l : Level), s.isTrace = false → (G2configmgr.SetLogLevel s l).trace = if l = Level.trace then [24] else []) ∧
    (∀ (s : G2product) (l : Level), s.isTrace = false → (G2product.SetLogLevel s l).trace = if l = Level.trace then [14] else []) ∧
    (∀ (s : G2engine) (a : String) (b : String) (c : String) (d : String), s.isTrace = false → (G2engine.AddRecord s a b c d).trace = []) ∧
    (∀ (s : G2engine) (a : String) (b : String) (c : String) (d : String) (f : Int), s.isTrace = false → (G2engine.AddRecordWithInfo s a b c d f).trace = []) ∧
    (∀ (s : G2engine) (a : String) (b : String) (c : String) (f : Int), s.isTrace = false → (G2engine.AddRecordWithInfoWithReturnedRecordID s a b c f).trace = []) ∧
    (∀ (s : G2engine) (a : String) (b : String) (c : String), s.isTrace = false → (G2engine.AddRecordWithReturnedRecordID s a b c).trace = []) ∧
    (∀ (s : G2engine) (a : String) (b : String), s.isTrace = false → (G2engine.CheckRecord s a b).trace = []) ∧
    (∀ (s : G2engine) (q : Nat), s.isTrace = false → (G2engine.CloseExport s q).trace = []) ∧
    (∀ (s : G2engine), s.isTrace = false → (G2engine.CountRedoRecords s).trace = []) ∧
    (∀ (s : G2engine) (a : String) (b : String) (c : String), s.isTrace = false → (G2engine.DeleteRecord s a b c).trace = []) ∧
    (∀ (s : G2engine) (a : String) (b : String) (c : String) (f : Int), s.isTrace = false → (G2engine.DeleteRecordWithInfo s a b c f).trace = []) ∧
    (∀ (s : G2engine), s.isTrace = false → (G2engine.Destroy s).trace = []) ∧
    (∀ (s : G2engine), s.isTrace = false → (G2engine.ExportConfig s).trace = []) ∧
    (∀ (s : G2engine), s.isTrace = false → (G2engine.ExportConfigAndConfigID s).trace = []) ∧
    (∀ (s : G2engine) (a : String) (f : Int), s.isTrace = false → (G2engine.ExportCSVEntityReport s a f).trace = []) ∧
    (∀ (s : G2engine) (f : Int), s.isTrace = false → (G2engine.ExportJSONEntityReport s f).trace = []) ∧
    (∀ (s : G2engine) (q : Nat), s.isTrace = false → (G2engine.FetchNext s q).trace = []) ∧
    (∀ (s : G2engine) (e : Int) (f : Int), s.isTrace = false → (G2engine.FindInterestingEntitiesByEntityID s e f).trace = []) ∧
    (∀ (s : G2engine) (a : String) (b : String) (f : Int), s.isTrace = false → (G2engine.FindInterestingEntitiesByRecordID s a b f).trace = []) ∧
    (∀ (s : G2engine) (a : String) (m : Int) (n : Int) (p : Int), s.isTrace = false → (G2engine.FindNetworkByEntityID s a m n p).trace = []) ∧
    (∀ (s : G2engine) (a : String) (m : Int) (n : Int) (p : Int) (f : Int), s.isTrace = false → (G2engine.FindNetworkByEntityID_V2 s a m n p f).trace = []) ∧
    (∀ (s : G2engine) (a : String) (m : Int) (n : Int) (p : Int), s.isTrace = false → (G2engine.FindNetworkByRecordID s a m n p).trace = []) ∧
    (∀ (s : G2engine) (a : String) (m : Int) (n : Int) (p : Int) (f : Int), s.isTrace = false → (G2engine.FindNetworkByRecordID_V2 s a m n p f).trace = []) ∧
    (∀ (s : G2engine) (e : Int) (g : Int) (m : Int), s.isTrace = false → (G2engine.FindPathByEntityID s e g m).trace = []) ∧
    (∀ (s : G2engine) (e : Int) (g : Int) (m : Int) (f : Int), s.isTrace = false → (G2engine.FindPathByEntityID_V2 s e g m f).trace = []) ∧
    (∀ (s : G2engine) (a : String) (b : String) (c : String) (d : String) (m : Int), s.isTrace = false → (G2engine.FindPathByRecordID s a b c d m).trace = []) ∧
    (∀ (s : G2engine) (a : String) (b : String) (c : String) (d : String) (m : Int) (f : Int), s.isTrace = false → (G2engine.FindPathByRecordID_V2 s a b c d m f).trace = []) ∧
    (∀ (s : G2engine) (e : Int) (g : Int) (m : Int) (x : String), s.isTrace = false → (G2engine.FindPathExcludingByEntityID s e g m x).trace = []) ∧
    (∀ (s : G2engine) (e : Int) (g : Int) (m : Int) (x : String) (f : Int), s.isTrace = false → (G2engine.FindPathExcludingByEntityID_V2 s e g m x f).trace = []) ∧
    (∀ (s : G2engine) (a : String) (b : String) (c : String) (d : String) (m : Int) (x : String), s.isTrace = false → (G2engine.FindPathExcludingByRecordID s a b c d m x).trace = []) ∧
    (∀ (s : G2engine) (a : String) (b : String) (c : String) (d : String) (m : Int) (x : String) (f : Int), s.isTrace = false → (G2engine.FindPathExcludingByRecordID_V2 s a b c d m x f).trace = []) ∧
    (∀ (s : G2engine) (e : Int) (g : Int) (m : Int) (x : String) (y : String), s.isTrace = false → (G2engine.FindPathIncludingSourceByEntityID s e g m x y).trace = []) ∧
    (∀ (s : G2engine) (e : Int) (g : Int) (m : Int) (x : String) (y : String) (f : Int), s.isTrace = false → (G2engine.FindPathIncludingSourceByEntityID_V2 s e g m x y f).trace = []) ∧
    (∀ (s : G2engine) (a : String) (b : String) (c : String) (d : String) (m : Int) (x : String) (y : String), s.isTrace = false → (G2engine.FindPathIncludingSourceByRecordID s a b c d m x y).trace = []) ∧
    (∀ (s : G2engine) (a : String) (b : String) (c : String) (d : String) (m : Int) (x : String) (y : String) (f : Int), s.isTrace = false → (G2engine.FindPathIncludingSourceByRecordID_V2 s a b c d m x y f).trace = []) ∧
    (∀ (s : G2engine), s.isTrace = false → (G2engine.GetActiveConfigID s).trace = []) ∧
    (∀ (s : G2engine) (e : Int), s.isTrace = false → (G2engine.GetEntityByEntityID s e).trace = []) ∧
    (∀ (s : G2engine) (e : Int) (f : Int), s.isTrace = false → (G2engine.GetEntityByEntityID_V2 s e f).trace = []) ∧
    (∀ (s : G2engine) (a : String) (b : String), s.isTrace = false → (G2engine.GetEntityByRecordID s a b).trace = []) ∧
    (∀ (s : G2engine) (a : String) (b : String) (f : Int), s.isTrace = false → (G2engine.GetEntityByRecordID_V2 s a b f).trace = []) ∧
    (∀ (s : G2engine) (a : String) (b : String), s.isTrace = false → (G2engine.GetRecord s a b).trace = []) ∧
    (∀ (s : G2engine) (a : String) (b : String) (f : Int), s.isTrace = false → (G2engine.GetRecord_V2 s a b f).trace = []) ∧
    (∀ (s : G2engine), s.isTrace = false → (G2engine.GetRedoRecord s).trace = []) ∧
    (∀ (s : G2engine), s.isTrace = false → (G2engine.GetRepositoryLastModifiedTime s).trace = []) ∧
    (∀ (s : G2engine), s.isTrace = false → (G2engine.GetSdkId s).trace = []) ∧
    (∀ (s : G2engine) (a : String), s.isTrace = false → (G2engine.GetVirtualEntityByRecordID s a).trace = []) ∧
    (∀ (s : G2engine) (a : String) (f : Int), s.isTrace = false → (G2engine.GetVirtualEntityByRecordID_V2 s a f).trace = []) ∧
    (∀ (s : G2engine) (e : Int), s.isTrace = false → (G2engine.HowEntityByEntityID s e).trace = []) ∧
    (∀ (s : G2engine) (e : Int) (f : Int), s.isTrace = false → (G2engine.HowEntityByEntityID_V2 s e f).trace = []) ∧
    (∀ (s : G2engine) (a : String) (b : String) (v : Int), s.isTrace = false → (G2engine.Init s a b v).trace = []) ∧
    (∀ (s : G2engine) (a : String) (b : String) (g : Int) (v : Int), s.isTrace = false → (G2engine.InitWithConfigID s a b g v).trace = []) ∧
    (∀ (s : G2engine), s.isTrace = false → (G2engine.PrimeEngine s).trace = []) ∧
    (∀ (s : G2engine) (a : String), s.isTrace = false → (G2engine.Process s a).trace = []) ∧
    (∀ (s : G2engine), s.isTrace = false → (G2engine.ProcessRedoRecord s).trace = []) ∧
    (∀ (s : G2engine) (f : Int), s.isTrace = false → (G2engine.ProcessRedoRecordWithInfo s f).trace = []) ∧
    (∀ (s : G2engine) (a : String) (f : Int), s.isTrace = false → (G2engine.ProcessWithInfo s a f).trace = []) ∧
    (∀ (s : G2engine) (a : String), s.isTrace = false → (G2engine.ProcessWithResponse s a).trace = []) ∧
    (∀ (s : G2engine) (a : String), s.isTrace = false → (G2engine.ProcessWithResponseResize s a).trace = []) ∧
    (∀ (s : G2engine), s.isTrace = false → (G2engine.PurgeRepository s).trace = []) ∧
    (∀ (s : G2engine) (e : Int) (f : Int), s.isTrace = false → (G2engine.ReevaluateEntity s e f).trace = []) ∧
    (∀ (s : G2engine) (e : Int) (f : Int), s.isTrace = false → (G2engine.ReevaluateEntityWithInfo s e f).trace = []) ∧
    (∀ (s : G2engine) (a : String) (b : String) (f : Int), s.isTrace = false → (G2engine.ReevaluateRecord s a b f).trace = []) ∧
    (∀ (s : G2engine) (a : String) (b : String) (f : Int), s.isTrace = false → (G2engine.ReevaluateRecordWithInfo s a b f).trace = []) ∧
    (∀ (s : G2engine) (o : Observer), s.isTrace = false → (G2engine.RegisterObserver s o).trace = []) ∧
    (∀ (s : G2engine) (g : Int), s.isTrace = false → (G2engine.Reinit s g).trace = []) ∧
    (∀ (s : G2engine) (a : String) (b : String) (c : String) (d : String), s.isTrace = false → (G2engine.ReplaceRecord s a b c d).trace = []) ∧
    (∀ (s : G2engine) (a : String) (b : String) (c : String) (d : String) (f : Int), s.isTrace = false → (G2engine.ReplaceRecordWithInfo s a b c d f).trace = []) ∧
    (∀ (s : G2engine) (a : String), s.isTrace = false → (G2engine.SearchByAttributes s a).trace = []) ∧
    (∀ (s : G2engine) (a : String) (f : Int), s.isTrace = false → (G2engine.SearchByAttributes_V2 s a f).trace = []) ∧
    (∀ (s : G2engine), s.isTrace = false → (G2engine.Stats s).trace = []) ∧
    (∀ (s : G2engine) (o : Observer), s.isTrace = false → (G2engine.UnregisterObserver s o).elim True (fun r => r.trace = [])) ∧
    (∀ (s : G2engine) (e : Int) (g : Int), s.isTrace = false → (G2engine.WhyEntities s e g).trace = []) ∧
    (∀ (s : G2engine) (e : Int) (g : Int) (f : Int), s.isTrace = false → (G2engine.WhyEntities_V2 s e g f).trace = []) ∧
    (∀ (s : G2engine) (e : Int), s.isTrace = false → (G2engine.WhyEntityByEntityID s e).trace = []) ∧
    (∀ (s : G2engine) (e : Int) (f : Int), s.isTrace = false → (G2engine.WhyEntityByEntityID_V2 s e f).trace = []) ∧
    (∀ (s : G2engine) (a : String) (b : String), s.isTrace = false → (G2engine.WhyEntityByRecordID s a b).trace = []) ∧
    (∀ (s : G2engine) (a : String) (b : String) (f : Int), s.isTrace = false → (G2engine.WhyEntityByRecordID_V2 s a b f).trace = []) ∧
    (∀ (s : G2engine) (a : String) (b : String) (c : String) (d : String), s.isTrace = false → (G2engine.WhyRecords s a b c d).trace = []) ∧
    (∀ (s : G2engine) (a : String) (b : String) (c : String) (d : String) (f : Int), s.isTrace = false → (G2engine.WhyRecords_V2 s a b c d f).trace = []) ∧
    (∀ (s : G2configmgr) (a : String) (b : String), s.isTrace = false → (G2configmgr.AddConfig s a b).trace = []) ∧
    (∀ (s : G2configmgr), s.isTrace = false → (G2configmgr.Destroy s).trace = []) ∧
    (∀ (s : G2configmgr) (g : Int), s.isTrace = false → (G2configmgr.GetConfig s g).trace = []) ∧
    (∀ (s : G2configmgr), s.isTrace = false → (G2configmgr.GetConfigList s).trace = []) ∧
    (∀ (s : G2configmgr), s.isTrace = false → (G2configmgr.GetDefaultConfigID s).trace = []) ∧
    (∀ (s : G2configmgr), s.isTrace = false → (G2configmgr.GetSdkId s).trace = []) ∧
    (∀ (s : G2configmgr) (a : String) (b : String) (v : Int), s.isTrace = false → (G2configmgr.Init s a b v).trace = []) ∧
    (∀ (s : G2configmgr) (o : Observer), s.isTrace = false → (G2configmgr.RegisterObserver s o).trace = []) ∧
    (∀ (s : G2configmgr) (g : Int) (j : Int), s.isTrace = false → (G2configmgr.ReplaceDefaultConfigID s g j).trace = []) ∧
    (∀ (s : G2configmgr) (g : Int), s.isTrace = false → (G2configmgr.SetDefaultConfigID s g).trace = []) ∧
    (∀ (s : G2configmgr) (o : Observer), s.isTrace = false → (G2configmgr.UnregisterObserver s o).elim True (fun r => r.trace = [])) ∧
    (∀ (s : G2product), s.isTrace = false → (G2product.Destroy s).trace = []) ∧
    (∀ (s : G2product), s.isTrace = false → (G2product.GetSdkId s).trace = []) ∧
    (∀ (s : G2product) (a : String) (b : String) (v : Int), s.isTrace = false → (G2product.Init s a b v).trace = []) ∧
    (∀ (s : G2product), s.isTrace = false → (G2product.License s).trace = []) ∧
    (∀ (s : G2product) (o : Observer), s.isTrace = false → (G2product.RegisterObserver s o).trace = []) ∧
    (∀ (s : G2product) (o : Observer), s.isTrace = false → (G2product.UnregisterObserver s o).elim True (fun r => r.trace = [])) ∧
    (∀ (s : G2product) (a : String), s.isTrace = false → (G2product.ValidateLicenseFile s a).trace = []) ∧
    (∀ (s : G2product) (a : String), s.isTrace = false → (G2product.ValidateLicenseStringBase64 s a).trace = []) ∧
    (∀ (s : G2product), s.isTrace = false → (G2product.Version s).trace = []) := by
  repeat' apply And.intro
  all_goals intros
  all_goals first
    | exact engine_std_trace_off _ _ _ _ _ _ (by assumption)
    | exact cfg_std_trace_off _ _ _ _ _ _ (by assumption)
    | exact prod_std_trace_off _ _ _ _ _ _ (by assumption)
    | exact engine_register_trace_off _ _ (by assumption)
    | exact cfg_register_trace_off _ _ (by assumption)
    | exact prod_register_trace_off _ _ (by assumption)
    | exact engine_unregister_trace_off _ _ (by assumption)
    | exact cfg_unregister_trace_off _ _ (by assumption)
    | exact prod_unregister_trace_off _ _ (by assumption)
    | exact engine_setLogLevel_trace_off _ _ (by assumption)
    | exact cfg_setLogLevel_trace_off _ _ (by assumption)
    | exact prod_setLogLevel_trace_off _ _ (by assumption)

/-- C9 witness: the amended `SetLogLevel` clause applied on a zero-value
engine client at level DEBUG. -/
theorem spec_c9_witness :
    (G2engine.SetLogLevel {} Level.debug).trace =
      (if Level.debug = Level.trace then [138] else []) :=
  spec_c9.1 {} Level.debug rfl

set_option maxHeartbeats 1000000 in
/-- C10: after `SetLogLevel(L)` the tracing flag is true iff the logger's
resulting level is TRACE, and every other operation leaves the tracing
flag unchanged. -/
theorem spec_c10 :
    (∀ (s : G2engine) (l : Level), ((G2engine.SetLogLevel s l).state.isTrace = true ↔ (G2engine.getLogger (G2engine.SetLogLevel s l).state).2.getLogLevel = Level.trace)) ∧
    (∀ (s : G2configmgr) (l : Level), ((G2configmgr.SetLogLevel s l).state.isTrace = true ↔ (G2configmgr.getLogger (G2configmgr.SetLogLevel s l).state).2.getLogLevel = Level.trace)) ∧
    (∀ (s : G2product) (l : Level), ((G2product.SetLogLevel s l).state.isTrace = true ↔ (G2product.getLogger (G2product.SetLogLevel s l).state).2.getLogLevel = Level.trace)) ∧
    (∀ (s : G2engine) (a : String) (b : String) (c : String) (d : String), (G2engine.AddRecord s a b c d).state.isTrace = s.isTrace) ∧
    (∀ (s : G2engine) (a : String) (b : String) (c : String) (d : String) (f : Int), (G2engine.AddRecordWithInfo s a b c d f).state.isTrace = s.isTrace) ∧
    (∀ (s : G2engine) (a : String) (b : String) (c : String) (f : Int), (G2engine.AddRecordWithInfoWithReturnedRecordID s a b c f).state.isTrace = s.isTrace) ∧
    (∀ (s : G2engine) (a : String) (b : String) (c : String), (G2engine.AddRecordWithReturnedRecordID s a b c).state.isTrace = s.isTrace) ∧
    (∀ (s : G2engine) (a : String) (b : String), (G2engine.CheckRecord s a b).state.isTrace = s.isTrace) ∧
    (∀ (s : G2engine) (q : Nat), (G2engine.CloseExport s q).state.isTrace = s.isTrace) ∧
    (∀ (s : G2engine), (G2engine.CountRedoRecords s).state.isTrace = s.isTrace) ∧
    (∀ (s : G2engine) (a : String) (b : String) (c : String), (G2engine.DeleteRecord s a b c).state.isTrace = s.isTrace) ∧
    (∀ (s : G2engine) (a : String) (b : String) (c : String) (f : Int), (G2engine.DeleteRecordWithInfo s a b c f).state.isTrace = s.isTrace) ∧
    (∀ (s : G2engine), (G2engine.Destroy s).state.isTrace = s.isTrace) ∧
    (∀ (s : G2engine), (G2engine.ExportConfig s).state.isTrace = s.isTrace) ∧
    (∀ (s : G2engine), (G2engine.ExportConfigAndConfigID s).state.isTrace = s.isTrace) ∧
    (∀ (s : G2engine) (a : String) (f : Int), (G2engine.ExportCSVEntityReport s a f).state.isTrace = s.isTrace) ∧
    (∀ (s : G2engine) (f : Int), (G2engine.ExportJSONEntityReport s f).state.isTrace = s.isTrace) ∧
    (∀ (s : G2engine) (q : Nat), (G2engine.FetchNext s q).state.isTrace = s.isTrace) ∧
    (∀ (s : G2engine) (e : Int) (f : Int), (G2engine.FindInterestingEntitiesByEntityID s e f).state.isTrace = s.isTrace) ∧
    (∀ (s : G2engine) (a : String) (b : String) (f : Int), (G2engine.FindInterestingEntitiesByRecordID s a b f).state.isTrace = s.isTrace) ∧
    (∀ (s : G2engine) (a : String) (m : Int) (n : Int) (p : Int), (G2engine.FindNetworkByEntityID s a m n p).state.isTrace = s.isTrace) ∧
    (∀ (s : G2engine) (a : String) (m : Int) (n : Int) (p : Int) (f : Int), (G2engine.FindNetworkByEntityID_V2 s a m n p f).state.isTrace = s.isTrace) ∧
    (∀ (s : G2engine) (a : String) (m : Int) (n : Int) (p : Int), (G2engine.FindNetworkByRecordID s a m n p).state.isTrace = s.isTrace) ∧
    (∀ (s : G2engine) (a : String) (m : Int) (n : Int) (p : Int) (f : Int), (G2engine.FindNetworkByRecordID_V2 s a m n p f).state.isTrace = s.isTrace) ∧
    (∀ (s : G2engine) (e : Int) (g : Int) (m : Int), (G2engine.FindPathByEntityID s e g m).state.isTrace = s.isTrace) ∧
    (∀ (s : G2engine) (e : Int) (g : Int) (m : Int) (f : Int), (G2engine.FindPathByEntityID_V2 s e g m f).state.isTrace = s.isTrace) ∧
    (∀ (s : G2engine) (a : String) (b : String) (c : String) (d : String) (m : Int), (G2engine.FindPathByRecordID s a b c d m).state.isTrace = s.isTrace) ∧
    (∀ (s : G2engine) (a : String) (b : String) (c : String) (d : String) (m : Int) (f : Int), (G2engine.FindPathByRecordID_V2 s a b c d m f).state.isTrace = s.isTrace) ∧
    (∀ (s : G2engine) (e : Int) (g : Int) (m : Int) (x : String), (G2engine.FindPathExcludingByEntityID s e g m x).state.isTrace = s.isTrace) ∧
    (∀ (s : G2engine) (e : Int) (g : Int) (m : Int) (x : String) (f : Int), (G2engine.FindPathExcludingByEntityID_V2 s e g m x f).state.isTrace = s.isTrace) ∧
    (∀ (s : G2engine) (a : String) (b : String) (c : String) (d : String) (m : Int) (x : String), (G2engine.FindPathExcludingByRecordID s a b c d m x).state.isTrace = s.isTrace) ∧
    (∀ (s : G2engine) (a : String) (b : String) (c : String) (d : String) (m : Int) (x : String) (f : Int), (G2engine.FindPathExcludingByRecordID_V2 s a b c d m x f).state.isTrace = s.isTrace) ∧
    (∀ (s : G2engine) (e : Int) (g : Int) (m : Int) (x : String) (y : String), (G2engine.FindPathIncludingSourceByEntityID s e g m x y).state.isTrace = s.isTrace) ∧
    (∀ (s : G2engine) (e : Int) (g : Int) (m : Int) (x : String) (y : String) (f : Int), (G2engine.FindPathIncludingSourceByEntityID_V2 s e g m x y f).state.isTrace = s.isTrace) ∧
    (∀ (s : G2engine) (a : String) (b : String) (c : String) (d : String) (m : Int) (x : String) (y : String), (G2engine.FindPathIncludingSourceByRecordID s a b c d m x y).state.isTrace = s.isTrace) ∧
    (∀ (s : G2engine) (a : String) (b : String) (c : String) (d : String) (m : Int) (x : String) (y : String) (f : Int), (G2engine.FindPathIncludingSourceByRecordID_V2 s a b c d m x y f).state.isTrace = s.isTrace) ∧
    (∀ (s : G2engine), (G2engine.GetActiveConfigID s).state.isTrace = s.isTrace) ∧
    (∀ (s : G2engine) (e : Int), (G2engine.GetEntityByEntityID s e).state.isTrace = s.isTrace) ∧
    (∀ (s : G2engine) (e : Int) (f : Int), (G2engine.GetEntityByEntityID_V2 s e f).state.isTrace = s.isTrace) ∧
    (∀ (s : G2engine) (a : String) (b : String), (G2engine.GetEntityByRecordID s a b).state.isTrace = s.isTrace) ∧
    (∀ (s : G2engine) (a : String) (b : String) (f : Int), (G2engine.GetEntityByRecordID_V2 s a b f).state.isTrace = s.isTrace) ∧
    (∀ (s : G2engine) (a : String) (b : String), (G2engine.GetRecord s a b).state.isTrace = s.isTrace) ∧
    (∀ (s : G2engine) (a : String) (b : String) (f : Int), (G2engine.GetRecord_V2 s a b f).state.isTrace = s.isTrace) ∧
    (∀ (s : G2engine), (G2engine.GetRedoRecord s).state.isTrace = s.isTrace) ∧
    (∀ (s : G2engine), (G2engine.GetRepositoryLastModifiedTime s).state.isTrace = s.isTrace) ∧
    (∀ (s : G2engine), (G2engine.GetSdkId s).state.isTrace = s.isTrace) ∧
    (∀ (s : G2engine) (a : String), (G2engine.GetVirtualEntityByRecordID s a).state.isTrace = s.isTrace) ∧
    (∀ (s : G2engine) (a : String) (f : Int), (G2engine.GetVirtualEntityByRecordID_V2 s a f).state.isTrace = s.isTrace) ∧
    (∀ (s : G2engine) (e : Int), (G2engine.HowEntityByEntityID s e).state.isTrace = s.isTrace) ∧
    (∀ (s : G2engine) (e : Int) (f : Int), (G2engine.HowEntityByEntityID_V2 s e f).state.isTrace = s.isTrace) ∧
    (∀ (s : G2engine) (a : String) (b : String) (v : Int), (G2engine.Init s a b v).state.isTrace = s.isTrace) ∧
    (∀ (s : G2engine) (a : String) (b : String) (g : Int) (v : Int), (G2engine.InitWithConfigID s a b g v).state.isTrace = s.isTrace) ∧
    (∀ (s : G2engine), (G2engine.PrimeEngine s).state.isTrace = s.isTrace) ∧
    (∀ (s : G2engine) (a : String), (G2engine.Process s a).state.isTrace = s.isTrace) ∧
    (∀ (s : G2engine), (G2engine.ProcessRedoRecord s).state.isTrace = s.isTrace) ∧
    (∀ (s : G2engine) (f : Int), (G2engine.ProcessRedoRecordWithInfo s f).state.isTrace = s.isTrace) ∧
    (∀ (s : G2engine) (a : String) (f : Int), (G2engine.ProcessWithInfo s a f).state.isTrace = s.isTrace) ∧
    (∀ (s : G2engine) (a : String), (G2engine.ProcessWithResponse s a).state.isTrace = s.isTrace) ∧
    (∀ (s : G2engine) (a : String), (G2engine.ProcessWithResponseResize s a).state.isTrace = s.isTrace) ∧
    (∀ (s : G2engine), (G2engine.PurgeRepository s).state.isTrace = s.isTrace) ∧
    (∀ (s : G2engine) (e : Int) (f : Int), (G2engine.ReevaluateEntity s e f).state.isTrace = s.isTrace) ∧
    (∀ (s : G2engine) (e : Int) (f : Int), (G2engine.ReevaluateEntityWithInfo s e f).state.isTrace = s.isTrace) ∧
    (∀ (s : G2engine) (a : String) (b : String) (f : Int), (G2engine.ReevaluateRecord s a b f).state.isTrace = s.isTrace) ∧
    (∀ (s : G2engine) (a : String) (b : String) (f : Int), (G2engine.ReevaluateRecordWithInfo s a b f).state.isTrace = s.isTrace) ∧
    (∀ (s : G2engine) (o : Observer), (G2engine.RegisterObserver s o).state.isTrace = s.isTrace) ∧
    (∀ (s : G2engine) (g : Int), (G2engine.Reinit s g).state.isTrace = s.isTrace) ∧
    (∀ (s : G2engine) (a : String) (b : String) (c : String) (d : String), (G2engine.ReplaceRecord s a b c d).state.isTrace = s.isTrace) ∧
    (∀ (s : G2engine) (a : String) (b : String) (c : String) (d : String) (f : Int), (G2engine.ReplaceRecordWithInfo s a b c d f).state.isTrace = s.isTrace) ∧
    (∀ (s : G2engine) (a : String), (G2engine.SearchByAttributes s a).state.isTrace = s.isTrace) ∧
    (∀ (s : G2engine) (a : String) (f : Int), (G2engine.SearchByAttributes_V2 s a f).state.isTrace = s.isTrace) ∧
    (∀ (s : G2engine), (G2engine.Stats s).state.isTrace = s.isTrace) ∧
    (∀ (s : G2engine) (o : Observer), ((G2engine.UnregisterObserver s o).map (fun r => r.state.isTrace)).getD s.isTrace = s.isTrace) ∧
    (∀ (s : G2engine) (e : Int) (g : Int), (G2engine.WhyEntities s e g).state.isTrace = s.isTrace) ∧
    (∀ (s : G2engine) (e : Int) (g : Int) (f : Int), (G2engine.WhyEntities_V2 s e g f).state.isTrace = s.isTrace) ∧
    (∀ (s : G2engine) (e : Int), (G2engine.WhyEntityByEntityID s e).state.isTrace = s.isTrace) ∧
    (∀ (s : G2engine) (e : Int) (f : Int), (G2engine.WhyEntityByEntityID_V2 s e f).state.isTrace = s.isTrace) ∧
    (∀ (s : G2engine) (a : String) (b : String), (G2engine.WhyEntityByRecordID s a b).state.isTrace = s.isTrace) ∧
    (∀ (s : G2engine) (a : String) (b : String) (f : Int), (G2engine.WhyEntityByRecordID_V2 s a b f).state.isTrace = s.isTrace) ∧
    (∀ (s : G2engine) (a : String) (b : String) (c : String) (d : String), (G2engine.WhyRecords s a b c d).state.isTrace = s.isTrace) ∧
    (∀ (s : G2engine) (a : String) (b : String) (c : String) (d : String) (f : Int), (G2engine.WhyRecords_V2 s a b c d f).state.isTrace = s.isTrace) ∧
    (∀ (s : G2configmgr) (a : String) (b : String), (G2configmgr.AddConfig s a b).state.isTrace = s.isTrace) ∧
    (∀ (s : G2configmgr), (G2configmgr.Destroy s).state.isTrace = s.isTrace) ∧
    (∀ (s : G2configmgr) (g : Int), (G2configmgr.GetConfig s g).state.isTrace = s.isTrace) ∧
    (∀ (s : G2configmgr), (G2configmgr.GetConfigList s).state.isTrace = s.isTrace) ∧
    (∀ (s : G2configmgr), (G2configmgr.GetDefaultConfigID s).state.isTrace = s.isTrace) ∧
    (∀ (s : G2configmgr), (G2configmgr.GetSdkId s).state.isTrace = s.isTrace) ∧
    (∀ (s : G2configmgr) (a : String) (b : String) (v : Int), (G2configmgr.Init s a b v).state.isTrace = s.isTrace) ∧
    (∀ (s : G2configmgr) (o : Observer), (G2configmgr.RegisterObserver s o).state.isTrace = s.isTrace) ∧
    (∀ (s : G2configmgr) (g : Int) (j : Int), (G2configmgr.ReplaceDefaultConfigID s g j).state.isTrace = s.isTrace) ∧
    (∀ (s : G2configmgr) (g : Int), (G2configmgr.SetDefaultConfigID s g).state.isTrace = s.isTrace) ∧
    (∀ (s : G2configmgr) (o : Observer), ((G2configmgr.UnregisterObserver s o).map (fun r => r.state.isTrace)).getD s.isTrace = s.isTrace) ∧
    (∀ (s : G2product), (G2product.Destroy s).state.isTrace = s.isTrace) ∧
    (∀ (s : G2product), (G2product.GetSdkId s).state.isTrace = s.isTrace) ∧
    (∀ (s : G2product) (a : String) (b : String) (v : Int), (G2product.Init s a b v).state.isTrace = s.isTrace) ∧
    (∀ (s : G2product), (G2product.License s).state.isTrace = s.isTrace) ∧
    (∀ (s : G2product) (o : Observer), (G2product.RegisterObserver s o).state.isTrace = s.isTrace) ∧
    (∀ (s : G2product) (o : Observer), ((G2product.UnregisterObserver s o).map (fun r => r.state.isTrace)).getD s.isTrace = s.isTrace) ∧
    (∀ (s : G2product) (a : String), (G2product.ValidateLicenseFile s a).state.isTrace = s.isTrace) ∧
    (∀ (s : G2product) (a : String), (G2product.ValidateLicenseStringBase64 s a).state.isTrace = s.isTrace) ∧
    (∀ (s : G2product), (G2product.Version s).state.isTrace = s.isTrace) := by
  repeat' apply And.intro
  all_goals intros
  all_goals first
    | exact engine_std_state_isTrace _ _ _ _ _ _
    | exact cfg_std_state_isTrace _ _ _ _ _ _
    | exact prod_std_state_isTrace _ _ _ _ _ _
    | exact engine_register_state_isTrace _ _
    | exact cfg_register_state_isTrace _ _
    | exact prod_register_state_isTrace _ _
    | exact engine_unregister_state_isTrace _ _
    | exact cfg_unregister_state_isTrace _ _
    | exact prod_unregister_state_isTrace _ _
    | (rw [engine_setLogLevel_state_isTrace, engine_setLogLevel_state_loggerLevel];
       exact level_beq_trace_iff _)
    | (rw [cfg_setLogLevel_state_isTrace, cfg_setLogLevel_state_loggerLevel];
       exact level_beq_trace_iff _)
    | (rw [prod_setLogLevel_state_isTrace, prod_setLogLevel_state_loggerLevel];
       exact level_beq_trace_iff _)

/-- C6 witness: registering an observer on a zero-value engine client
preserves the registry-shape invariant. -/
theorem spec_c6_witness :
    wfObservers ((G2engine.RegisterObserver {} "O1").state.observers) :=
  spec_c6.1 {} "O1" (by decide)

end SenzingMock
